import Mathlib

/-!
Shallow embedding of `src/reglyco_interface_plugin/snfg.py` (the SNFG glyph
rendering core of the reglycosylation plugin), together with theorems about
the claims of the specification.

Modelling conventions:
* Python floats are modelled as real numbers (`ℝ`); 3-vectors as a `Vec3`
  structure of three reals.
* The two external numpy linear-algebra calls are modelled as follows:
  `np.linalg.matrix_rank` is the linear-algebra rank of the coordinate matrix
  (`Matrix.rank`), and `np.linalg.svd`'s last right-singular row `vh[-1]` is
  an explicit function parameter `svd : List Vec3 → Vec3`; the predicate
  `IsSvdLastRow` states the defining property of that row (a unit vector
  minimising the sum of squared projections of the data rows), which any
  correct SVD implementation satisfies.
* PyMOL's `cmd.get_model` is a function parameter `getModel`; `cmd.delete`
  and `cmd.load_cgo` are recorded in an effect trace of `SinkCmd`s.
* CGO opcodes (`cgo.COLOR`, `cgo.VERTEX`, ...) are distinguished float
  constants in PyMOL; they are modelled as constructors of a token type
  `Tok`, with `Tok.num` for the numeric operands.
* Python exceptions inside a shape generator are modelled by letting the
  per-residue generator be a function into `Except GenErr (List Tok)`; the
  concrete generators of the source are total in real arithmetic and are
  embedded as such, and `render_core` is stated over an arbitrary generator
  so that the exception-handling control flow of `render_snfg` is captured.
* `np.isnan` is identically false on real numbers, so the final NaN guard of
  `get_residue_orientation` and of the debug-axes block is modelled by a
  function that is constantly `false`.
-/

namespace Reglyco

noncomputable section

/-- A 3-vector of reals, modelling a numpy array of three floats. -/
structure Vec3 where
  x : ℝ
  y : ℝ
  z : ℝ

namespace Vec3

@[ext] theorem ext_iff' {a b : Vec3} (hx : a.x = b.x) (hy : a.y = b.y)
    (hz : a.z = b.z) : a = b := by
  cases a; cases b; simp_all

instance : Add Vec3 := ⟨fun a b => ⟨a.x + b.x, a.y + b.y, a.z + b.z⟩⟩
instance : Sub Vec3 := ⟨fun a b => ⟨a.x - b.x, a.y - b.y, a.z - b.z⟩⟩
instance : Neg Vec3 := ⟨fun a => ⟨-a.x, -a.y, -a.z⟩⟩
instance : SMul ℝ Vec3 := ⟨fun c a => ⟨c * a.x, c * a.y, c * a.z⟩⟩
instance : Zero Vec3 := ⟨⟨0, 0, 0⟩⟩

@[simp] theorem add_def (a b : Vec3) : a + b = ⟨a.x + b.x, a.y + b.y, a.z + b.z⟩ := rfl
@[simp] theorem sub_def (a b : Vec3) : a - b = ⟨a.x - b.x, a.y - b.y, a.z - b.z⟩ := rfl
@[simp] theorem neg_def (a : Vec3) : -a = ⟨-a.x, -a.y, -a.z⟩ := rfl
@[simp] theorem smul_def (c : ℝ) (a : Vec3) : c • a = ⟨c * a.x, c * a.y, c * a.z⟩ := rfl
@[simp] theorem zero_def : (0 : Vec3) = ⟨0, 0, 0⟩ := rfl

/-- Componentwise division by a scalar, `v / c` in numpy broadcasting. -/
def sdiv (a : Vec3) (c : ℝ) : Vec3 := ⟨a.x / c, a.y / c, a.z / c⟩

end Vec3

/-- `np.dot` on 3-vectors. -/
def dot3 (a b : Vec3) : ℝ := a.x * b.x + a.y * b.y + a.z * b.z

/-- `np.cross` on 3-vectors. -/
def cross3 (a b : Vec3) : Vec3 :=
  ⟨a.y * b.z - a.z * b.y, a.z * b.x - a.x * b.z, a.x * b.y - a.y * b.x⟩

/-- The squared Euclidean norm. -/
def sqnorm (v : Vec3) : ℝ := dot3 v v

/-- `np.linalg.norm` of a 3-vector. -/
def norm3 (v : Vec3) : ℝ := Real.sqrt (sqnorm v)

theorem sqnorm_nonneg (v : Vec3) : 0 ≤ sqnorm v := by
  unfold sqnorm dot3; nlinarith [sq_nonneg v.x, sq_nonneg v.y, sq_nonneg v.z]

theorem norm3_nonneg (v : Vec3) : 0 ≤ norm3 v := Real.sqrt_nonneg _

theorem sq_norm3 (v : Vec3) : norm3 v ^ 2 = sqnorm v :=
  Real.sq_sqrt (sqnorm_nonneg v)

theorem norm3_eq_one_iff {v : Vec3} : norm3 v = 1 ↔ sqnorm v = 1 :=
  Real.sqrt_eq_one

/-- `normalize_vector` (snfg.py lines 24-32): divides by the Euclidean norm;
if the norm is below `1e-9` it warns and returns the fixed fallback
`[0, 0, 1]`. -/
def normalize_vector (v : Vec3) : Vec3 :=
  if norm3 v < 1 / 10 ^ 9 then ⟨0, 0, 1⟩ else v.sdiv (norm3 v)

/-- The condition under which `normalize_vector` issues its `warnings.warn`
diagnostic (the near-zero-norm branch of snfg.py line 27). -/
def NormalizeWarns (v : Vec3) : Prop := norm3 v < 1 / 10 ^ 9

theorem normalize_of_small {v : Vec3} (h : norm3 v < 1 / 10 ^ 9) :
    normalize_vector v = ⟨0, 0, 1⟩ := by
  unfold normalize_vector; rw [if_pos h]

theorem normalize_of_large {v : Vec3} (h : 1 / 10 ^ 9 ≤ norm3 v) :
    normalize_vector v = v.sdiv (norm3 v) := by
  unfold normalize_vector; rw [if_neg (not_lt.mpr h)]

theorem sqnorm_sdiv (v : Vec3) (c : ℝ) :
    sqnorm (v.sdiv c) = sqnorm v / c ^ 2 := by
  unfold sqnorm dot3 Vec3.sdiv; ring

/-- `normalize_vector` always returns a vector of squared norm exactly 1. -/
theorem sqnorm_normalize (v : Vec3) : sqnorm (normalize_vector v) = 1 := by
  unfold normalize_vector
  split
  · simp [sqnorm, dot3]
  · rename_i h
    have h9 : (0 : ℝ) < 1 / 10 ^ 9 := by norm_num
    have hpos : 0 < norm3 v := lt_of_lt_of_le h9 (not_lt.mp h)
    rw [sqnorm_sdiv, ← sq_norm3]
    field_simp

theorem norm3_normalize (v : Vec3) : norm3 (normalize_vector v) = 1 :=
  norm3_eq_one_iff.mpr (sqnorm_normalize v)

/-- A vector of squared norm 1 is returned unchanged by `normalize_vector`. -/
theorem normalize_of_unit {v : Vec3} (h : sqnorm v = 1) :
    normalize_vector v = v := by
  have hn : norm3 v = 1 := norm3_eq_one_iff.mpr h
  rw [normalize_of_large (by rw [hn]; norm_num), hn]
  unfold Vec3.sdiv
  cases v; simp

@[simp] theorem dot3_comm (a b : Vec3) : dot3 a b = dot3 b a := by
  unfold dot3; ring

theorem dot3_cross_left (a b : Vec3) : dot3 (cross3 a b) a = 0 := by
  unfold dot3 cross3; ring

theorem dot3_cross_right (a b : Vec3) : dot3 (cross3 a b) b = 0 := by
  unfold dot3 cross3; ring

/-- Lagrange's identity for the cross product. -/
theorem sqnorm_cross (a b : Vec3) :
    sqnorm (cross3 a b) = sqnorm a * sqnorm b - dot3 a b ^ 2 := by
  unfold sqnorm dot3 cross3; ring

/-- Double cross-product expansion `(a × b) × a = ‖a‖² b - (a·b) a`. -/
theorem cross_cross_self (a b : Vec3) :
    cross3 (cross3 a b) a = sqnorm a • b - dot3 a b • a := by
  unfold cross3 sqnorm dot3
  apply Vec3.ext_iff' <;> simp <;> ring

theorem dot3_smul_left (c : ℝ) (a b : Vec3) : dot3 (c • a) b = c * dot3 a b := by
  unfold dot3; simp; ring

theorem dot3_sub_left (a b w : Vec3) :
    dot3 (a - b) w = dot3 a w - dot3 b w := by
  unfold dot3; simp; ring

theorem dot3_sdiv_left (v : Vec3) (c : ℝ) (w : Vec3) :
    dot3 (v.sdiv c) w = dot3 v w / c := by
  unfold dot3 Vec3.sdiv; ring

theorem cross3_sdiv_left (v : Vec3) (c : ℝ) (w : Vec3) :
    cross3 (v.sdiv c) w = (cross3 v w).sdiv c := by
  unfold cross3 Vec3.sdiv
  apply Vec3.ext_iff' <;> simp <;> ring

theorem cross3_sdiv_right (v : Vec3) (c : ℝ) (w : Vec3) :
    cross3 w (v.sdiv c) = (cross3 w v).sdiv c := by
  unfold cross3 Vec3.sdiv
  apply Vec3.ext_iff' <;> simp <;> ring

/-- An atom record of the PyMOL model object returned by `cmd.get_model`:
only the fields read by `get_residue_orientation` are modelled. -/
structure Atom where
  name : String
  chain : String
  resi : String
  resn : String
  coord : Vec3

/-- A residue key `(atom.chain, atom.resi, atom.resn)` (snfg.py line 53). -/
abbrev ResKey := String × String × String

/-- The orientation tuple `(resn, center, x_axis, y_axis, z_axis)` stored per
residue by `get_residue_orientation` (snfg.py lines 74, 82, 154, 157). -/
structure Frame where
  resn : String
  center : Vec3
  xAxis : Vec3
  yAxis : Vec3
  zAxis : Vec3

/-- `required_atoms = {'C1','C2','C3','C4','C5','O5'}` (snfg.py line 47).
Python iterates this set in an unspecified order; only order-invariant
quantities (means, ranks) are taken from it, and the model fixes one order. -/
def required_atoms : List String := ["C1", "C2", "C3", "C4", "C5", "O5"]

/-- `plane_atoms = {'C1','C2','C3','C4','C5'}` (snfg.py line 48). -/
def plane_atoms : List String := ["C1", "C2", "C3", "C4", "C5"]

/-- Insert-or-overwrite into an association list, with Python-dict semantics:
an existing key keeps its position and gets the new value, a new key is
appended at the end. -/
def dictSet {α : Type} [DecidableEq α] {β : Type} :
    List (α × β) → α → β → List (α × β)
  | [], k, v => [(k, v)]
  | (k', v') :: rest, k, v =>
      if k' = k then (k, v) :: rest else (k', v') :: dictSet rest k v

/-- Dictionary lookup: `d[k]` / `k in d` on an association list. -/
def dictGet {α : Type} [DecidableEq α] {β : Type}
    (l : List (α × β)) (k : α) : Option β :=
  (l.find? (fun p => p.1 = k)).map (·.2)

/-- The per-residue atom dictionary: atom name → coordinate. -/
abbrev AtomDict := List (String × Vec3)

/-- One iteration of the `residue_atoms` collection loop
(snfg.py lines 50-56): an atom whose name is in `required_atoms` is filed
under its residue key. -/
def residueAtomsStep (acc : List (ResKey × AtomDict)) (atom : Atom) :
    List (ResKey × AtomDict) :=
  if atom.name ∈ required_atoms then
    match dictGet acc (atom.chain, atom.resi, atom.resn) with
    | some inner =>
        dictSet acc (atom.chain, atom.resi, atom.resn)
          (dictSet inner atom.name atom.coord)
    | none =>
        dictSet acc (atom.chain, atom.resi, atom.resn) [(atom.name, atom.coord)]
  else acc

/-- The `residue_atoms` collection loop (snfg.py lines 50-56): atoms whose
name is in `required_atoms` are grouped by residue key; both the outer and
the inner Python dicts keep insertion order and overwrite values. -/
def residueAtomsOf (model : List Atom) : List (ResKey × AtomDict) :=
  model.foldl residueAtomsStep []

/-- `np.mean(coords, axis=0)`: the componentwise mean of a list of vectors. -/
def mean3 (l : List Vec3) : Vec3 :=
  (l.foldl (· + ·) 0).sdiv (l.length : ℝ)

/-- The coordinate matrix of a list of row vectors, as used by
`np.linalg.matrix_rank` and `np.linalg.svd` on `centered_coords`. -/
def rowMatrix (rows : List Vec3) : Matrix (Fin rows.length) (Fin 3) ℝ :=
  Matrix.of fun i j => ![(rows.get i).x, (rows.get i).y, (rows.get i).z] j

/-- Model of the external call `np.linalg.matrix_rank(centered_coords)`:
numpy's matrix rank (the number of singular values above tolerance) is the
linear-algebra rank of the matrix, exact in real arithmetic. -/
def matRank (rows : List Vec3) : ℕ := (rowMatrix rows).rank

/-- The defining property of `vh[-1]`, the last row of the right factor of
`np.linalg.svd(rows)`: a unit vector minimising the sum of squared
projections of the rows (the singular vector of smallest singular value).
Any correct SVD implementation satisfies this; it pins the answer down only
up to sign, which is why the code's SVD call is modelled as an explicit
function parameter constrained by this predicate. -/
def IsSvdLastRow (rows : List Vec3) (v : Vec3) : Prop :=
  sqnorm v = 1 ∧
    ∀ w : Vec3, sqnorm w = 1 →
      (rows.map (fun r => dot3 r v ^ 2)).sum ≤ (rows.map (fun r => dot3 r w ^ 2)).sum

/-- The default basis vectors (snfg.py lines 63-65). -/
def default_x : Vec3 := ⟨1, 0, 0⟩

/-- The default Y basis vector. -/
def default_y : Vec3 := ⟨0, 1, 0⟩

/-- The default Z basis vector. -/
def default_z : Vec3 := ⟨0, 0, 1⟩

/-- `np.isnan(...).any()` on a real-valued vector: real numbers have no NaN,
so the guard of snfg.py line 152 is identically false in this model. -/
def vecHasNaN (_ : Vec3) : Bool := false

/-- The arbitrary helper vector of the near-parallel branch
(snfg.py lines 133-136): global X, or global Y if Z is near global X. -/
def tempVecFor (z_axis : Vec3) : Vec3 :=
  if |dot3 ⟨1, 0, 0⟩ z_axis| > 99 / 100 then ⟨0, 1, 0⟩ else ⟨1, 0, 0⟩

/-- The near-parallel branch of the X/Y construction
(snfg.py lines 127-141): `Y = normalize(Z × temp)`,
`X = normalize(Y × Z)`; returns `(x_axis, y_axis)`. -/
def defineXY_parallel (z_axis : Vec3) : Vec3 × Vec3 :=
  (normalize_vector
     (cross3 (normalize_vector (cross3 z_axis (tempVecFor z_axis))) z_axis),
   normalize_vector (cross3 z_axis (tempVecFor z_axis)))

/-- The generic branch of the X/Y construction (snfg.py lines 143-148):
`X = normalize(plane_normal × Z)`, `Y = normalize(Z × X)`;
returns `(x_axis, y_axis)`. -/
def defineXY_generic (plane_normal z_axis : Vec3) : Vec3 × Vec3 :=
  (normalize_vector (cross3 plane_normal z_axis),
   normalize_vector (cross3 z_axis (normalize_vector (cross3 plane_normal z_axis))))

/-- The X/Y-axis construction from the plane normal and the Z axis
(snfg.py lines 125-148), returning `(x_axis, y_axis)`. -/
def defineXY (plane_normal z_axis : Vec3) : Vec3 × Vec3 :=
  if |dot3 plane_normal z_axis| > 995 / 1000 then defineXY_parallel z_axis
  else defineXY_generic plane_normal z_axis

/-- The plane-normal computation (snfg.py lines 95-122): PCA via SVD on the
available C1-C5 coordinates, with the default normal on fewer than 3 plane
atoms, on rank deficiency, or (unreachable here, since the coordinate
dimension is always 3 ≥ 2) on `LinAlgError`. -/
def planeNormalOf (svd : List Vec3 → Vec3) (atoms : AtomDict) : Vec3 :=
  let plane_coords_list := plane_atoms.filterMap (dictGet atoms)
  if plane_coords_list.length < 3 then default_z
  else
    let plane_center := mean3 plane_coords_list
    let centered_coords := plane_coords_list.map (· - plane_center)
    if matRank centered_coords < min centered_coords.length 3 - 1 then default_z
    else normalize_vector (svd centered_coords)

/-- The Z-axis computation (snfg.py lines 85-92): towards C4 from the
center, with the default Z when the two are nearly coincident
(distance < `1e-6`). -/
def zAxisFor (coord_C4 center : Vec3) : Vec3 :=
  if norm3 (coord_C4 - center) < 1 / 10 ^ 6 then default_z
  else normalize_vector (coord_C4 - center)

/-- The per-residue body of `get_residue_orientation` (snfg.py lines 59-157).
`svd` models the external `np.linalg.svd` call (its last right-singular
row). -/
def orientResidue (svd : List Vec3 → Vec3) (key : ResKey) (atoms : AtomDict) :
    Frame :=
  let resn := key.2.2
  -- 1. center (lines 67-77)
  let center_coords := required_atoms.filterMap (dictGet atoms)
  if center_coords.length < 3 then
    let available_coords := atoms.map (·.2)
    let center := if available_coords.isEmpty then (0 : Vec3)
                  else mean3 available_coords
    ⟨resn, center, default_x, default_y, default_z⟩
  else
    let center := mean3 center_coords
    -- 2. Z axis towards C4 (lines 79-92)
    match dictGet atoms "C4" with
    | none => ⟨resn, center, default_x, default_y, default_z⟩
    | some coord_C4 =>
      let z_axis := zAxisFor coord_C4 center
      -- 3. plane normal (lines 95-122), 4. X/Y axes (lines 125-148)
      let xy := defineXY (planeNormalOf svd atoms) z_axis
      -- 5. final NaN check (lines 151-157); no NaN exists in ℝ
      if vecHasNaN xy.1 || vecHasNaN xy.2 || vecHasNaN z_axis then
        ⟨resn, center, default_x, default_y, default_z⟩
      else
        ⟨resn, center, xy.1, xy.2, z_axis⟩

/-- `get_residue_orientation(selection)` (snfg.py lines 34-160). `getModel`
models the external `cmd.get_model`, `svd` the external `np.linalg.svd`. -/
def get_residue_orientation (svd : List Vec3 → Vec3)
    (getModel : String → List Atom) (selection : String) : List Frame :=
  (residueAtomsOf (getModel selection)).map fun p => orientResidue svd p.1 p.2

/-- A 3×3 matrix given by its three columns, `np.array([x, y, z]).T`. -/
structure Mat3 where
  c0 : Vec3
  c1 : Vec3
  c2 : Vec3

/-- Matrix–vector product for a column-built `Mat3`. -/
def mulVec3 (m : Mat3) (v : Vec3) : Vec3 := v.x • m.c0 + v.y • m.c1 + v.z • m.c2

/-- `get_transformation_matrix` (snfg.py lines 163-181): re-normalizes the
axes and returns the matrix whose columns are the basis vectors. -/
def get_transformation_matrix (x_axis y_axis z_axis : Vec3) : Mat3 :=
  ⟨normalize_vector x_axis, normalize_vector y_axis, normalize_vector z_axis⟩

/-- `transform_vertices` (snfg.py lines 184-195): rotate each local vertex to
the global orientation, then translate by the center; order-preserving. -/
def transform_vertices (vertices : List Vec3) (center : Vec3)
    (rotation_matrix : Mat3) : List Vec3 :=
  vertices.map fun v => mulVec3 rotation_matrix v + center

/-- `transform_normals` (snfg.py lines 197-205): rotate and re-normalize each
normal; no translation. -/
def transform_normals (normals : List Vec3) (rotation_matrix : Mat3) :
    List Vec3 :=
  normals.map fun n => normalize_vector (mulVec3 rotation_matrix n)

/-- An RGB color (three floats in `[0,1]`). -/
structure Color where
  r : ℝ
  g : ℝ
  b : ℝ

/-- `SNFG_WHITE` (snfg.py line 8). -/
def SNFG_WHITE : Color := ⟨255 / 255, 255 / 255, 255 / 255⟩

/-- `SNFG_BLUE` (snfg.py line 9). -/
def SNFG_BLUE : Color := ⟨0 / 255, 144 / 255, 188 / 255⟩

/-- `SNFG_GREEN` (snfg.py line 10). -/
def SNFG_GREEN : Color := ⟨0 / 255, 166 / 255, 81 / 255⟩

/-- `SNFG_YELLOW` (snfg.py line 11). -/
def SNFG_YELLOW : Color := ⟨255 / 255, 212 / 255, 0 / 255⟩

/-- `SNFG_LIGHT_BLUE` (snfg.py line 12). -/
def SNFG_LIGHT_BLUE : Color := ⟨143 / 255, 204 / 255, 233 / 255⟩

/-- `SNFG_PINK` (snfg.py line 13). -/
def SNFG_PINK : Color := ⟨246 / 255, 158 / 255, 161 / 255⟩

/-- `SNFG_PURPLE` (snfg.py line 14). -/
def SNFG_PURPLE : Color := ⟨165 / 255, 67 / 255, 153 / 255⟩

/-- `SNFG_BROWN` (snfg.py line 15). -/
def SNFG_BROWN : Color := ⟨161 / 255, 122 / 255, 77 / 255⟩

/-- `SNFG_ORANGE` (snfg.py line 16). -/
def SNFG_ORANGE : Color := ⟨244 / 255, 121 / 255, 32 / 255⟩

/-- `SNFG_RED` (snfg.py line 17). -/
def SNFG_RED : Color := ⟨237 / 255, 28 / 255, 36 / 255⟩

/-- `AXIS_X_COLOR` (snfg.py line 20). -/
def AXIS_X_COLOR : Color := ⟨1, 0, 0⟩

/-- `AXIS_Y_COLOR` (snfg.py line 21). -/
def AXIS_Y_COLOR : Color := ⟨0, 1, 0⟩

/-- `AXIS_Z_COLOR` (snfg.py line 22). -/
def AXIS_Z_COLOR : Color := ⟨0, 0, 1⟩

/-- One token of a CGO primitive list.  PyMOL encodes the opcodes as
distinguished float constants; they are modelled as constructors, with
`num` carrying the numeric operands (coordinates, radii, color channels). -/
inductive Tok where
  | COLOR
  | BEGIN
  | END_GROUP
  | VERTEX
  | NORMAL
  | SPHERE
  | CONE
  | CYLINDER
  | TRIANGLE_FAN
  | TRIANGLE_STRIP
  | TRIANGLES
  | num (v : ℝ)

/-- The three operands spread from a color: `*color`. -/
def colorToks (c : Color) : List Tok := [.num c.r, .num c.g, .num c.b]

/-- The three operands spread from a vector: `*point`. -/
def vecToks (v : Vec3) : List Tok := [.num v.x, .num v.y, .num v.z]

/-- `cgo.VERTEX, *point`. -/
def vertexToks (v : Vec3) : List Tok := Tok.VERTEX :: vecToks v

/-- `cgo.NORMAL, *normal`. -/
def normalToks (v : Vec3) : List Tok := Tok.NORMAL :: vecToks v

/-- `cgo_star` (snfg.py lines 209-262). -/
def cgo_star (x y z r : ℝ) (color : Color) (x_axis y_axis z_axis : Vec3) :
    List Tok :=
  let center : Vec3 := ⟨x, y, z⟩
  let rotation_matrix := get_transformation_matrix x_axis y_axis z_axis
  let r_inner := 0.45 * r
  -- angles for the 5 points in the local X-Z plane (line 217)
  let angles := (List.range 5).map fun i => (i : ℝ) * 72 * Real.pi / 180
  let outer_points_local := angles.map fun angle =>
    (⟨r * Real.cos angle, 0, r * Real.sin angle⟩ : Vec3)
  let inner_points_local := angles.map fun angle =>
    let inner_angle := angle + 36 * Real.pi / 180
    (⟨r_inner * Real.cos inner_angle, 0, r_inner * Real.sin inner_angle⟩ : Vec3)
  let volume_points_local : List Vec3 := [⟨0, 0.6 * r, 0⟩, ⟨0, -(0.6 * r), 0⟩]
  let outer_points := transform_vertices outer_points_local center rotation_matrix
  let inner_points := transform_vertices inner_points_local center rotation_matrix
  let volume_points := transform_vertices volume_points_local center rotation_matrix
  let normal_front := (transform_normals [⟨0, 1, 0⟩] rotation_matrix).getD 0 0
  let normal_back := (transform_normals [⟨0, -1, 0⟩] rotation_matrix).getD 0 0
  (Tok.COLOR :: colorToks color) ++
    -- front face (lines 244-249)
    ([Tok.BEGIN, Tok.TRIANGLE_FAN] ++ normalToks normal_front ++
      vertexToks (volume_points.getD 0 0) ++
      ((List.range 5).flatMap fun i =>
        vertexToks (outer_points.getD i 0) ++ vertexToks (inner_points.getD i 0)) ++
      vertexToks (outer_points.getD 0 0) ++ [Tok.END_GROUP]) ++
    -- back face (lines 252-260)
    ([Tok.BEGIN, Tok.TRIANGLE_FAN] ++ normalToks normal_back ++
      vertexToks (volume_points.getD 1 0) ++
      ((List.range 5).flatMap fun i =>
        vertexToks (outer_points.getD i 0) ++ vertexToks (inner_points.getD i 0)) ++
      vertexToks (outer_points.getD 0 0) ++ [Tok.END_GROUP])

/-- `cgo_sphere` (snfg.py lines 265-270). -/
def cgo_sphere (x y z size : ℝ) (color : Color) : List Tok :=
  (Tok.COLOR :: colorToks color) ++
    [Tok.SPHERE, .num x, .num y, .num z, .num (size * 1.3)]

/-- `cgo_cone` (snfg.py lines 272-287). -/
def cgo_cone (x y z r : ℝ) (color : Color) (x_axis y_axis z_axis : Vec3) :
    List Tok :=
  let center : Vec3 := ⟨x, y, z⟩
  let rotation_matrix := get_transformation_matrix x_axis y_axis z_axis
  let vertices_local : List Vec3 := [⟨0, 0, r⟩, ⟨0, 0, -r⟩]
  let vertices := transform_vertices vertices_local center rotation_matrix
  (Tok.COLOR :: colorToks color) ++
    ([Tok.CONE] ++ vecToks (vertices.getD 0 0) ++ vecToks (vertices.getD 1 0) ++
      [.num 0, .num r] ++ colorToks color ++ colorToks color ++ [.num 1, .num 1])

/-- The six local diamond vertices (snfg.py lines 294-301 and 341-348). -/
def diamond_vertices_local (r : ℝ) : List Vec3 :=
  [⟨0, 0, r⟩, ⟨0, 0, -r⟩, ⟨0, r, 0⟩, ⟨0, -r, 0⟩, ⟨r, 0, 0⟩, ⟨-r, 0, 0⟩]

/-- The eight approximate local face normals of the diamond
(snfg.py lines 307-312 and 354-359). -/
def diamond_normals_local : List Vec3 :=
  [normalize_vector ⟨1, 1, 1⟩, normalize_vector ⟨-1, 1, 1⟩,
   normalize_vector ⟨-1, -1, 1⟩, normalize_vector ⟨1, -1, 1⟩,
   normalize_vector ⟨1, 1, -1⟩, normalize_vector ⟨-1, 1, -1⟩,
   normalize_vector ⟨-1, -1, -1⟩, normalize_vector ⟨1, -1, -1⟩]

/-- The vertex index triples of the eight diamond faces
(snfg.py lines 317-332). -/
def diamond_faces : List (ℕ × ℕ × ℕ) :=
  [(0, 2, 4), (0, 5, 2), (0, 3, 5), (0, 4, 3),
   (1, 4, 2), (1, 2, 5), (1, 5, 3), (1, 3, 4)]

/-- `cgo_diamond` (snfg.py lines 289-334). -/
def cgo_diamond (x y z r : ℝ) (color : Color) (x_axis y_axis z_axis : Vec3) :
    List Tok :=
  let center : Vec3 := ⟨x, y, z⟩
  let rotation_matrix := get_transformation_matrix x_axis y_axis z_axis
  let vertices := transform_vertices (diamond_vertices_local r) center rotation_matrix
  let normals := transform_normals diamond_normals_local rotation_matrix
  (Tok.COLOR :: colorToks color) ++ [Tok.BEGIN, Tok.TRIANGLES] ++
    ((List.range 8).flatMap fun i =>
      let f := diamond_faces.getD i (0, 0, 0)
      normalToks (normals.getD i 0) ++ vertexToks (vertices.getD f.1 0) ++
        vertexToks (vertices.getD f.2.1 0) ++ vertexToks (vertices.getD f.2.2 0)) ++
    [Tok.END_GROUP]

/-- The per-face color choice of `cgo_half_diamond`: faces 1, 4, 5 and 8
(indices 0, 3, 4, 7) take `color_2`, the rest take `color`
(snfg.py lines 363-386). -/
def half_diamond_face_color (color color_2 : Color) (i : ℕ) : Color :=
  if i = 0 ∨ i = 3 ∨ i = 4 ∨ i = 7 then color_2 else color

/-- `cgo_half_diamond` (snfg.py lines 336-388). -/
def cgo_half_diamond (x y z r : ℝ) (color color_2 : Color)
    (x_axis y_axis z_axis : Vec3) : List Tok :=
  let center : Vec3 := ⟨x, y, z⟩
  let rotation_matrix := get_transformation_matrix x_axis y_axis z_axis
  let vertices := transform_vertices (diamond_vertices_local r) center rotation_matrix
  let normals := transform_normals diamond_normals_local rotation_matrix
  [Tok.BEGIN, Tok.TRIANGLES] ++
    ((List.range 8).flatMap fun i =>
      let f := diamond_faces.getD i (0, 0, 0)
      (Tok.COLOR :: colorToks (half_diamond_face_color color color_2 i)) ++
        normalToks (normals.getD i 0) ++ vertexToks (vertices.getD f.1 0) ++
        vertexToks (vertices.getD f.2.1 0) ++ vertexToks (vertices.getD f.2.2 0)) ++
    [Tok.END_GROUP]

/-- The 24 local cube vertices, four per face (snfg.py lines 396-409). -/
def cube_vertices_local (r : ℝ) : List Vec3 :=
  [⟨r, r, -r⟩, ⟨r, -r, -r⟩, ⟨r, r, r⟩, ⟨r, -r, r⟩,
   ⟨-r, r, r⟩, ⟨-r, -r, r⟩, ⟨-r, r, -r⟩, ⟨-r, -r, -r⟩,
   ⟨-r, r, r⟩, ⟨r, r, r⟩, ⟨-r, r, -r⟩, ⟨r, r, -r⟩,
   ⟨-r, -r, -r⟩, ⟨r, -r, -r⟩, ⟨-r, -r, r⟩, ⟨r, -r, r⟩,
   ⟨-r, r, r⟩, ⟨-r, -r, r⟩, ⟨r, r, r⟩, ⟨r, -r, r⟩,
   ⟨-r, -r, -r⟩, ⟨-r, r, -r⟩, ⟨r, -r, -r⟩, ⟨r, r, -r⟩]

/-- The six local cube face normals (snfg.py lines 420-423). -/
def cube_normals_local : List Vec3 :=
  [⟨1, 0, 0⟩, ⟨-1, 0, 0⟩, ⟨0, 1, 0⟩, ⟨0, -1, 0⟩, ⟨0, 0, 1⟩, ⟨0, 0, -1⟩]

/-- `cgo_cube` (snfg.py lines 390-441): six faces, each a `TRIANGLE_STRIP`
group with one normal and four vertices in strip order `[0, 2, 1, 3]`. -/
def cgo_cube (x y z r : ℝ) (color : Color) (x_axis y_axis z_axis : Vec3) :
    List Tok :=
  let center : Vec3 := ⟨x, y, z⟩
  let rotation_matrix := get_transformation_matrix x_axis y_axis z_axis
  let strip_order : List ℕ := [0, 2, 1, 3]
  let vertices := transform_vertices (cube_vertices_local r) center rotation_matrix
  let normals := transform_normals cube_normals_local rotation_matrix
  (Tok.COLOR :: colorToks color) ++
    (List.range 6).flatMap fun i =>
      [Tok.BEGIN, Tok.TRIANGLE_STRIP] ++ normalToks (normals.getD i 0) ++
        (strip_order.flatMap fun si => vertexToks (vertices.getD (i * 4 + si) 0)) ++
        [Tok.END_GROUP]

/-- The static residue-name → (color, shape) table `snfg_shapes`
(snfg.py lines 457-498), in source order. -/
def snfg_shapes : List (String × Color × String) :=
  [("GLC", SNFG_BLUE, "sphere"), ("MAL", SNFG_BLUE, "sphere"),
   ("BGC", SNFG_BLUE, "sphere"), ("MAN", SNFG_GREEN, "sphere"),
   ("BMA", SNFG_GREEN, "sphere"), ("GAL", SNFG_YELLOW, "sphere"),
   ("GLA", SNFG_YELLOW, "sphere"), ("FUC", SNFG_RED, "cone"),
   ("FUL", SNFG_RED, "cone"), ("XYL", SNFG_ORANGE, "star"),
   ("XYP", SNFG_ORANGE, "star"), ("XYS", SNFG_ORANGE, "star"),
   ("ARA", SNFG_GREEN, "star"), ("AHR", SNFG_GREEN, "star"),
   ("RIB", SNFG_PINK, "star"), ("NAG", SNFG_BLUE, "cube"),
   ("GLCNAC", SNFG_BLUE, "cube"), ("4YS", SNFG_BLUE, "cube"),
   ("SGN", SNFG_BLUE, "cube"), ("BGLN", SNFG_BLUE, "cube"),
   ("NDG", SNFG_BLUE, "cube"), ("NGA", SNFG_YELLOW, "cube"),
   ("GALNAC", SNFG_YELLOW, "cube"), ("A2G", SNFG_YELLOW, "cube"),
   ("MANNA", SNFG_GREEN, "cube"), ("NEU5AC", SNFG_PURPLE, "diamond"),
   ("SIA", SNFG_PURPLE, "diamond"), ("NEU5GC", SNFG_LIGHT_BLUE, "diamond"),
   ("NGC", SNFG_LIGHT_BLUE, "diamond"), ("KDN", SNFG_GREEN, "diamond"),
   ("ADA", SNFG_YELLOW, "half_diamond"), ("GLCA", SNFG_BLUE, "half_diamond"),
   ("GCU", SNFG_BLUE, "half_diamond"), ("BDP", SNFG_BLUE, "half_diamond"),
   ("IDOA", SNFG_BROWN, "half_diamond_reverse"),
   ("IDS", SNFG_BROWN, "half_diamond_reverse"),
   ("IDR", SNFG_BROWN, "half_diamond_reverse"), ("API", SNFG_PINK, "diamond")]

/-- The filtered selection string
`f"({selection}) and resn {target_resn}"` (snfg.py lines 501-506), with the
target residue names joined from the table keys. -/
def fullSelectionOf (selection : String) : String :=
  "(" ++ selection ++ ") and resn " ++
    String.intercalate "+" (snfg_shapes.map (·.1))

/-- The CGO object-name sanitization (snfg.py lines 503-504):
non-alphanumeric characters become `_`, an empty result becomes
`"selection"`. -/
def safeSelectionName (selection : String) : String :=
  let s := String.map (fun c => if c.isAlphanum then c else '_') selection
  if s = "" then "selection" else s

/-- The derived primary CGO object name `f"snfg_{safe_selection_name}"`
(snfg.py lines 597 and 604). -/
def cgoNameOf (selection : String) : String :=
  "snfg_" ++ safeSelectionName selection

/-- The derived debug-axes CGO object name `f"{cgo_name}_axes"`
(snfg.py lines 598 and 611). -/
def axesNameOf (selection : String) : String := cgoNameOf selection ++ "_axes"

/-- An effect on the external sink: `cmd.delete(name)` or
`cmd.load_cgo(obj, name)`. -/
inductive SinkCmd where
  | del (name : String)
  | load (name : String) (obj : List Tok)

/-- An opaque Python exception message. -/
abbrev GenErr := String

/-- The log entries of `render_snfg` that the claims talk about. -/
inductive LogEntry where
  /-- `print(f"ERROR generating CGO for {resn} at {center}: {e}")`
  (snfg.py line 588): a caught per-residue generation failure, logged with
  the residue identity and the triggering error. -/
  | cgoError (resn : String) (center : Vec3) (err : GenErr)
  /-- Any other informational or warning print. -/
  | info (msg : String)

/-- The fallible per-residue shape generation: everything inside the `try`
of snfg.py lines 537-584 up to and including the shape dispatch.  A Python
exception raised by a generator is an `Except.error`. -/
abbrev GenFun := Frame → Color → String → Except GenErr (List Tok)

/-- The concrete shape dispatch of snfg.py lines 538-555: total in real
arithmetic (the `try` around it can only fire for numpy-internal errors,
which the abstract `GenFun` of `render_core` accounts for). -/
def residue_cgo (scale : ℝ) (f : Frame) (color : Color) (shape : String) :
    List Tok :=
  let shape_scale_factor := 4.0 * scale
  let x := f.center.x
  let y := f.center.y
  let z := f.center.z
  if shape = "sphere" then cgo_sphere x y z (1.8 * scale) color
  else if shape = "star" then
    cgo_star x y z shape_scale_factor color f.xAxis f.yAxis f.zAxis
  else if shape = "cone" then
    cgo_cone x y z (shape_scale_factor * 0.75) color f.xAxis f.yAxis f.zAxis
  else if shape = "cube" then
    cgo_cube x y z (shape_scale_factor * 0.55) color f.xAxis f.yAxis f.zAxis
  else if shape = "diamond" then
    cgo_diamond x y z (shape_scale_factor * 0.75) color f.xAxis f.yAxis f.zAxis
  else if shape = "half_diamond" then
    cgo_half_diamond x y z (shape_scale_factor * 0.75) color SNFG_WHITE
      f.xAxis f.yAxis f.zAxis
  else if shape = "half_diamond_reverse" then
    cgo_half_diamond x y z (shape_scale_factor * 0.75) SNFG_WHITE color
      f.xAxis f.yAxis f.zAxis
  else
    -- unknown shape kind: warn and fall back to a sphere (lines 553-555)
    cgo_sphere x y z (1.8 * scale) color

/-- The three debug-axis cylinders for one frame
(snfg.py lines 565-584); emitted only when no axis component is NaN, which
is always true in real arithmetic. -/
def debugAxesToks (axis_length axis_radius : ℝ) (f : Frame) : List Tok :=
  let endTok := fun (a : Vec3) (c : Color) =>
    [Tok.CYLINDER] ++ vecToks f.center ++ vecToks (f.center + axis_length • a) ++
      [Tok.num axis_radius] ++ colorToks c ++ colorToks c
  if vecHasNaN f.xAxis || vecHasNaN f.yAxis || vecHasNaN f.zAxis then []
  else
    endTok f.xAxis AXIS_X_COLOR ++ endTok f.yAxis AXIS_Y_COLOR ++
      endTok f.zAxis AXIS_Z_COLOR

/-- The loop state of `render_snfg`'s per-residue loop: the accumulated
primary CGO list, the accumulated debug-axes list, the log, and
`processed_count`. -/
structure LoopState where
  cgo_objects : List Tok
  debug_cgo_objects : List Tok
  logs : List LogEntry
  processed_count : ℕ

/-- One iteration of the per-residue loop (snfg.py lines 526-590), for an
arbitrary fallible generator `gen`. -/
def renderStep (gen : GenFun) (debug_axes : Bool)
    (axis_length axis_radius : ℝ) (st : LoopState) (f : Frame) : LoopState :=
  match dictGet snfg_shapes f.resn with
  | none =>
      -- line 527-530: not in the table (redundant with the selection filter)
      { st with logs := st.logs ++ [.info "not in snfg_shapes"] }
  | some (color, shape) =>
      match gen f color shape with
      | .error e =>
          -- lines 587-590: exception caught, logged with residue identity,
          -- residue skipped, loop continues
          { st with logs := st.logs ++ [.cgoError f.resn f.center e] }
      | .ok cgo_obj =>
          let st' :=
            if cgo_obj.isEmpty then
              { st with logs := st.logs ++ [.info "no CGO generated"] }
            else
              { st with cgo_objects := st.cgo_objects ++ cgo_obj,
                        processed_count := st.processed_count + 1 }
          if debug_axes then
            { st' with debug_cgo_objects :=
                st'.debug_cgo_objects ++ debugAxesToks axis_length axis_radius f }
          else st'

/-- `render_snfg` (snfg.py lines 446-621), with the per-residue generator
abstracted as `gen` so that the exception-handling contract can be stated;
`getModel` and `svd` model the external PyMOL / numpy collaborators.
Returns the final loop state together with the trace of sink effects. -/
def render_core (gen : GenFun) (svd : List Vec3 → Vec3)
    (getModel : String → List Atom) (selection : String)
    (scale : ℝ) (debug_axes : Bool) : LoopState × List SinkCmd :=
  let orientation_data := get_residue_orientation svd getModel
    (fullSelectionOf selection)
  if orientation_data.isEmpty then
    -- lines 512-514: nothing matched; log and return with no effects
    (⟨[], [], [.info "no matching residues"], 0⟩, [])
  else
    let shape_scale_factor := 4.0 * scale
    let axis_length := shape_scale_factor * 1.5
    let axis_radius := scale * 0.1
    let final := orientation_data.foldl
      (renderStep gen debug_axes axis_length axis_radius) ⟨[], [], [], 0⟩
    if final.cgo_objects.isEmpty then
      -- lines 593-601: no primary object; the previously loaded primary
      -- object (if any) is neither deleted nor replaced.  Debug axes, if
      -- requested and generated, are loaded without a prior delete.
      if debug_axes && !final.debug_cgo_objects.isEmpty then
        (final, [.load (axesNameOf selection) final.debug_cgo_objects])
      else (final, [])
    else
      -- lines 603-614: delete-then-load the primary object, then the debug
      -- axes object likewise
      (final,
        [.del (cgoNameOf selection), .load (cgoNameOf selection) final.cgo_objects] ++
          if debug_axes && !final.debug_cgo_objects.isEmpty then
            [.del (axesNameOf selection),
             .load (axesNameOf selection) final.debug_cgo_objects]
          else [])

/-- The concrete `render_snfg`, instantiating the abstract generator with
the total shape dispatch of the source. -/
def render_snfg (svd : List Vec3 → Vec3) (getModel : String → List Atom)
    (selection : String) (scale : ℝ) (debug_axes : Bool) :
    LoopState × List SinkCmd :=
  render_core (fun f color shape => .ok (residue_cgo scale f color shape))
    svd getModel selection scale debug_axes

/-! ### Token-list observers used to state the shape-structure claims -/

/-- Recognize the `BEGIN` opcode. -/
def isBeginTok : Tok → Bool
  | .BEGIN => true
  | _ => false

/-- Recognize the `END` opcode. -/
def isEndTok : Tok → Bool
  | .END_GROUP => true
  | _ => false

/-- Recognize the `VERTEX` opcode. -/
def isVertexTok : Tok → Bool
  | .VERTEX => true
  | _ => false

/-- Recognize the `NORMAL` opcode. -/
def isNormalTok : Tok → Bool
  | .NORMAL => true
  | _ => false

/-- Split a primitive list into its `BEGIN`...`END` face groups, returning
the token runs strictly between matching `BEGIN`/`END` pairs. -/
def splitGroupsAux : List Tok → Option (List Tok) → List (List Tok)
  | [], _ => []
  | .BEGIN :: rest, _ => splitGroupsAux rest (some [])
  | .END_GROUP :: rest, some acc => acc.reverse :: splitGroupsAux rest none
  | .END_GROUP :: rest, none => splitGroupsAux rest none
  | t :: rest, some acc => splitGroupsAux rest (some (t :: acc))
  | _ :: rest, none => splitGroupsAux rest none

/-- The `BEGIN`/`END` face groups of a primitive list. -/
def splitGroups (l : List Tok) : List (List Tok) := splitGroupsAux l none

/-- The vertices of a token run, in emission order: every
`VERTEX, x, y, z` quadruple. -/
def verticesOf : List Tok → List Vec3
  | .VERTEX :: .num a :: .num b :: .num c :: rest => ⟨a, b, c⟩ :: verticesOf rest
  | _ :: rest => verticesOf rest
  | [] => []

/-- The normals of a token run, in emission order: every
`NORMAL, x, y, z` quadruple. -/
def normalsOf : List Tok → List Vec3
  | .NORMAL :: .num a :: .num b :: .num c :: rest => ⟨a, b, c⟩ :: normalsOf rest
  | _ :: rest => normalsOf rest
  | [] => []

/-! ### Claim theorems -/

/-- C6: for every vector of norm below `1e-9` (in particular one of norm
`1e-12`), `normalize_vector` returns exactly `(0,0,1)` and signals the
warning diagnostic instead of raising; for norm at least `1e-9` it returns
the vector divided by its Euclidean norm. -/
theorem c6_normalize_contract (v : Vec3) :
    (norm3 v < 1 / 10 ^ 9 →
      normalize_vector v = ⟨0, 0, 1⟩ ∧ NormalizeWarns v) ∧
    (1 / 10 ^ 9 ≤ norm3 v →
      normalize_vector v = v.sdiv (norm3 v) ∧ ¬NormalizeWarns v) := by
  constructor
  · intro h
    exact ⟨normalize_of_small h, h⟩
  · intro h
    exact ⟨normalize_of_large h, not_lt.mpr h⟩

/-- Witness for C6: the vector `(1e-12, 0, 0)` has norm `1e-12 < 1e-9` and
is mapped to `(0,0,1)` with the warning signalled. -/
theorem c6_normalize_contract_witness :
    normalize_vector ⟨1 / 10 ^ 12, 0, 0⟩ = ⟨0, 0, 1⟩ ∧
      NormalizeWarns ⟨1 / 10 ^ 12, 0, 0⟩ := by
  have hn : norm3 ⟨1 / 10 ^ 12, 0, 0⟩ = 1 / 10 ^ 12 := by
    unfold norm3 sqnorm dot3
    rw [show ((1 : ℝ) / 10 ^ 12) * (1 / 10 ^ 12) + 0 * 0 + 0 * 0
          = (1 / 10 ^ 12) ^ 2 by ring]
    exact Real.sqrt_sq (by norm_num)
  exact (c6_normalize_contract ⟨1 / 10 ^ 12, 0, 0⟩).1 (by rw [hn]; norm_num)

/-- C9: transforming any list of local vertices with the matrix built from
the identity basis `(1,0,0),(0,1,0),(0,0,1)` and center `(0,0,0)` returns
the original vertices unchanged, in the same order. -/
theorem c9_identity_roundtrip (vertices : List Vec3) :
    transform_vertices vertices 0
      (get_transformation_matrix ⟨1, 0, 0⟩ ⟨0, 1, 0⟩ ⟨0, 0, 1⟩) = vertices := by
  have hx : normalize_vector ⟨1, 0, 0⟩ = ⟨1, 0, 0⟩ :=
    normalize_of_unit (by unfold sqnorm dot3; norm_num)
  have hy : normalize_vector ⟨0, 1, 0⟩ = ⟨0, 1, 0⟩ :=
    normalize_of_unit (by unfold sqnorm dot3; norm_num)
  have hz : normalize_vector ⟨0, 0, 1⟩ = ⟨0, 0, 1⟩ :=
    normalize_of_unit (by unfold sqnorm dot3; norm_num)
  unfold transform_vertices get_transformation_matrix
  rw [hx, hy, hz]
  conv_rhs => rw [← List.map_id vertices]
  apply List.map_congr_left
  intro v _
  unfold mulVec3
  apply Vec3.ext_iff' <;> simp

/-- C7: for every center, size, color and basis, `cgo_cube` emits exactly 6
`BEGIN`/`END` face groups, each containing exactly 4 `VERTEX` opcodes and
exactly 1 `NORMAL` declaration. -/
theorem c7_cube_faces (x y z r : ℝ) (color : Color) (xa ya za : Vec3) :
    (splitGroups (cgo_cube x y z r color xa ya za)).length = 6 ∧
      ∀ g ∈ splitGroups (cgo_cube x y z r color xa ya za),
        g.countP isVertexTok = 4 ∧ g.countP isNormalTok = 1 := by
  constructor
  · rfl
  · intro g hg
    fin_cases hg <;> exact ⟨rfl, rfl⟩

/-- The spec's outer star point: on the local rim of radius `r` at angle
`72°·i` (in the local X-Z plane). -/
def starOuterLocal (r : ℝ) (i : ℕ) : Vec3 :=
  ⟨r * Real.cos ((i : ℝ) * 72 * Real.pi / 180), 0,
   r * Real.sin ((i : ℝ) * 72 * Real.pi / 180)⟩

/-- The spec's inner star point: radius `0.45·r`, rotated `36°` from the
matching outer point. -/
def starInnerLocal (r : ℝ) (i : ℕ) : Vec3 :=
  ⟨0.45 * r * Real.cos ((i : ℝ) * 72 * Real.pi / 180 + 36 * Real.pi / 180), 0,
   0.45 * r * Real.sin ((i : ℝ) * 72 * Real.pi / 180 + 36 * Real.pi / 180)⟩

theorem mulVec3_e2 (m : Mat3) : mulVec3 m ⟨0, 1, 0⟩ = m.c1 := by
  unfold mulVec3
  apply Vec3.ext_iff' <;> simp

theorem mulVec3_neg_e2 (m : Mat3) : mulVec3 m ⟨0, -1, 0⟩ = -m.c1 := by
  unfold mulVec3
  apply Vec3.ext_iff' <;> simp

theorem sqnorm_neg (v : Vec3) : sqnorm (-v) = sqnorm v := by
  simp only [Vec3.neg_def, sqnorm, dot3]; ring

theorem normalize_neg_of_unit {v : Vec3} (h : sqnorm v = 1) :
    normalize_vector (-v) = -normalize_vector v := by
  rw [normalize_of_unit h, normalize_of_unit (by rw [sqnorm_neg, h])]

/-- C8: `cgo_star` emits exactly two face groups (front and back); each
group's vertex run is the apex followed by the 5 outer rim points at radius
`r` alternating with the 5 inner rim points at radius `0.45·r` rotated 36°,
closed by repeating the first outer vertex at the end; each group carries
exactly one explicit normal, equal to plus (front) respectively minus
(back) the transformed local Y axis. -/
theorem c8_star_structure (x y z r : ℝ) (color : Color) (xa ya za : Vec3) :
    (splitGroups (cgo_star x y z r color xa ya za)).length = 2 ∧
    (verticesOf ((splitGroups (cgo_star x y z r color xa ya za)).getD 0 []) =
      (mulVec3 (get_transformation_matrix xa ya za) ⟨0, 0.6 * r, 0⟩ + ⟨x, y, z⟩) ::
        (((List.range 5).flatMap fun i =>
          [mulVec3 (get_transformation_matrix xa ya za) (starOuterLocal r i) + ⟨x, y, z⟩,
           mulVec3 (get_transformation_matrix xa ya za) (starInnerLocal r i) + ⟨x, y, z⟩]) ++
          [mulVec3 (get_transformation_matrix xa ya za) (starOuterLocal r 0) + ⟨x, y, z⟩])) ∧
    (verticesOf ((splitGroups (cgo_star x y z r color xa ya za)).getD 1 []) =
      (mulVec3 (get_transformation_matrix xa ya za) ⟨0, -(0.6 * r), 0⟩ + ⟨x, y, z⟩) ::
        (((List.range 5).flatMap fun i =>
          [mulVec3 (get_transformation_matrix xa ya za) (starOuterLocal r i) + ⟨x, y, z⟩,
           mulVec3 (get_transformation_matrix xa ya za) (starInnerLocal r i) + ⟨x, y, z⟩]) ++
          [mulVec3 (get_transformation_matrix xa ya za) (starOuterLocal r 0) + ⟨x, y, z⟩])) ∧
    (normalsOf ((splitGroups (cgo_star x y z r color xa ya za)).getD 0 []) =
      [normalize_vector (mulVec3 (get_transformation_matrix xa ya za) ⟨0, 1, 0⟩)]) ∧
    (normalsOf ((splitGroups (cgo_star x y z r color xa ya za)).getD 1 []) =
      [-normalize_vector (mulVec3 (get_transformation_matrix xa ya za) ⟨0, 1, 0⟩)]) ∧
    (∀ i : ℕ, sqnorm (starOuterLocal r i) = r ^ 2 ∧
      sqnorm (starInnerLocal r i) = (0.45 * r) ^ 2) := by
  refine ⟨rfl, rfl, rfl, rfl, ?_, ?_⟩
  · show [normalize_vector (mulVec3 (get_transformation_matrix xa ya za) ⟨0, -1, 0⟩)] =
      [-normalize_vector (mulVec3 (get_transformation_matrix xa ya za) ⟨0, 1, 0⟩)]
    rw [mulVec3_neg_e2, mulVec3_e2]
    exact congrArg (fun v => [v])
      (normalize_neg_of_unit
        (show sqnorm (get_transformation_matrix xa ya za).c1 = 1 from
          sqnorm_normalize ya))
  · intro i
    constructor
    · unfold starOuterLocal sqnorm dot3
      have := Real.sin_sq_add_cos_sq ((i : ℝ) * 72 * Real.pi / 180)
      nlinarith [this]
    · unfold starInnerLocal sqnorm dot3
      have := Real.sin_sq_add_cos_sq ((i : ℝ) * 72 * Real.pi / 180 + 36 * Real.pi / 180)
      nlinarith [this]

/-! ### Orthonormality of the estimated frames (C2) -/

theorem le_norm3_of_sq {a : ℝ} {v : Vec3} (ha : 0 ≤ a) (h : a ^ 2 ≤ sqnorm v) :
    a ≤ norm3 v :=
  (Real.le_sqrt ha (sqnorm_nonneg v)).mpr h

/-- `(a × b) × a` expanded the other way round:
`a × (b × a) = ‖a‖² b - (a·b) a`. -/
theorem cross_cross_self' (a b : Vec3) :
    cross3 a (cross3 b a) = sqnorm a • b - dot3 a b • a := by
  unfold cross3 sqnorm dot3
  apply Vec3.ext_iff' <;> simp <;> ring

theorem sqnorm_default_x : sqnorm default_x = 1 := by
  unfold default_x sqnorm dot3; norm_num

theorem sqnorm_default_y : sqnorm default_y = 1 := by
  unfold default_y sqnorm dot3; norm_num

theorem sqnorm_default_z : sqnorm default_z = 1 := by
  unfold default_z sqnorm dot3; norm_num

theorem tempVec_unit (z : Vec3) : sqnorm (tempVecFor z) = 1 := by
  unfold tempVecFor
  split <;> (unfold sqnorm dot3; norm_num)

theorem tempVec_dot_sq_le (z : Vec3) (hz : sqnorm z = 1) :
    dot3 z (tempVecFor z) ^ 2 ≤ (99 / 100) ^ 2 := by
  unfold tempVecFor
  split
  · rename_i h
    have h1 : (99 / 100 : ℝ) < |z.x| := by
      have : dot3 ⟨1, 0, 0⟩ z = z.x := by unfold dot3; ring
      rw [this] at h
      exact h
    have h2 : dot3 z ⟨0, 1, 0⟩ = z.y := by unfold dot3; ring
    rw [h2]
    have hs : z.x ^ 2 + z.y ^ 2 + z.z ^ 2 = 1 := by
      have : sqnorm z = z.x ^ 2 + z.y ^ 2 + z.z ^ 2 := by unfold sqnorm dot3; ring
      linarith [this ▸ hz]
    nlinarith [sq_nonneg z.z, sq_abs z.x]
  · rename_i h
    have h1 : |dot3 ⟨1, 0, 0⟩ z| ≤ 99 / 100 := not_lt.mp h
    have h2 : dot3 z ⟨1, 0, 0⟩ = dot3 ⟨1, 0, 0⟩ z := dot3_comm _ _
    rw [h2]
    nlinarith [sq_abs (dot3 ⟨1, 0, 0⟩ z), abs_nonneg (dot3 ⟨1, 0, 0⟩ z)]

/-- The near-parallel branch produces an exactly orthonormal, exactly
right-handed pair with the given unit Z axis. -/
theorem defineXY_parallel_props (z : Vec3) (hz : sqnorm z = 1) :
    dot3 (defineXY_parallel z).1 (defineXY_parallel z).2 = 0 ∧
    dot3 (defineXY_parallel z).1 z = 0 ∧
    dot3 (defineXY_parallel z).2 z = 0 ∧
    sqnorm (defineXY_parallel z).1 = 1 ∧
    sqnorm (defineXY_parallel z).2 = 1 ∧
    dot3 (cross3 (defineXY_parallel z).1 (defineXY_parallel z).2) z = 1 := by
  have ht := tempVec_unit z
  have hd := tempVec_dot_sq_le z hz
  have hsqc : sqnorm (cross3 z (tempVecFor z)) = 1 - dot3 z (tempVecFor z) ^ 2 := by
    rw [sqnorm_cross, hz, ht]; ring
  have hcge : (1 / 10 ^ 9 : ℝ) ^ 2 ≤ sqnorm (cross3 z (tempVecFor z)) := by
    rw [hsqc]; nlinarith
  have hnc : (1 / 10 ^ 9 : ℝ) ≤ norm3 (cross3 z (tempVecFor z)) :=
    le_norm3_of_sq (by norm_num) hcge
  have hyunit : sqnorm (normalize_vector (cross3 z (tempVecFor z))) = 1 :=
    sqnorm_normalize _
  have hyz : dot3 (normalize_vector (cross3 z (tempVecFor z))) z = 0 := by
    rw [normalize_of_large hnc, dot3_sdiv_left, dot3_cross_left, zero_div]
  have hxcross :
      sqnorm (cross3 (normalize_vector (cross3 z (tempVecFor z))) z) = 1 := by
    rw [sqnorm_cross, hyunit, hz, hyz]; ring
  have hx : normalize_vector (cross3 (normalize_vector (cross3 z (tempVecFor z))) z)
      = cross3 (normalize_vector (cross3 z (tempVecFor z))) z :=
    normalize_of_unit hxcross
  unfold defineXY_parallel
  rw [hx]
  refine ⟨dot3_cross_left _ _, dot3_cross_right _ _, hyz, hxcross, hyunit, ?_⟩
  rw [cross_cross_self (normalize_vector (cross3 z (tempVecFor z))) z,
    dot3_sub_left, dot3_smul_left, dot3_smul_left, hyunit, hyz]
  have hzz : dot3 z z = 1 := hz
  rw [hzz]; ring

/-- The generic branch produces an exactly orthonormal, exactly right-handed
pair with the given unit Z axis, provided the plane normal is a unit vector
not near-parallel to Z. -/
theorem defineXY_generic_props (n z : Vec3) (hn : sqnorm n = 1)
    (hz : sqnorm z = 1) (hpar : |dot3 n z| ≤ 995 / 1000) :
    dot3 (defineXY_generic n z).1 (defineXY_generic n z).2 = 0 ∧
    dot3 (defineXY_generic n z).1 z = 0 ∧
    dot3 (defineXY_generic n z).2 z = 0 ∧
    sqnorm (defineXY_generic n z).1 = 1 ∧
    sqnorm (defineXY_generic n z).2 = 1 ∧
    dot3 (cross3 (defineXY_generic n z).1 (defineXY_generic n z).2) z = 1 := by
  have hsqc : sqnorm (cross3 n z) = 1 - dot3 n z ^ 2 := by
    rw [sqnorm_cross, hn, hz]; ring
  have hcge : (1 / 10 ^ 9 : ℝ) ^ 2 ≤ sqnorm (cross3 n z) := by
    rw [hsqc]
    nlinarith [sq_abs (dot3 n z), abs_nonneg (dot3 n z)]
  have hnc : (1 / 10 ^ 9 : ℝ) ≤ norm3 (cross3 n z) :=
    le_norm3_of_sq (by norm_num) hcge
  have hxunit : sqnorm (normalize_vector (cross3 n z)) = 1 := sqnorm_normalize _
  have hxz : dot3 (normalize_vector (cross3 n z)) z = 0 := by
    rw [normalize_of_large hnc, dot3_sdiv_left, dot3_cross_right, zero_div]
  have hzx : dot3 z (normalize_vector (cross3 n z)) = 0 := by
    rw [dot3_comm]; exact hxz
  have hycross : sqnorm (cross3 z (normalize_vector (cross3 n z))) = 1 := by
    rw [sqnorm_cross, hxunit, hz, hzx]; ring
  have hy : normalize_vector (cross3 z (normalize_vector (cross3 n z)))
      = cross3 z (normalize_vector (cross3 n z)) := normalize_of_unit hycross
  unfold defineXY_generic
  rw [hy]
  refine ⟨?_, hxz, dot3_cross_left _ _, hxunit, hycross, ?_⟩
  · rw [dot3_comm]; exact dot3_cross_right _ _
  · rw [cross_cross_self' (normalize_vector (cross3 n z)) z, dot3_sub_left,
      dot3_smul_left, dot3_smul_left, hxunit, hxz]
    have hzz : dot3 z z = 1 := hz
    rw [hzz]; ring

/-- Any unit plane normal and unit Z axis yield an exactly orthonormal,
exactly right-handed `(X, Y, Z)` triple from the X/Y construction. -/
theorem defineXY_props (n z : Vec3) (hn : sqnorm n = 1) (hz : sqnorm z = 1) :
    dot3 (defineXY n z).1 (defineXY n z).2 = 0 ∧
    dot3 (defineXY n z).1 z = 0 ∧
    dot3 (defineXY n z).2 z = 0 ∧
    sqnorm (defineXY n z).1 = 1 ∧
    sqnorm (defineXY n z).2 = 1 ∧
    dot3 (cross3 (defineXY n z).1 (defineXY n z).2) z = 1 := by
  unfold defineXY
  split
  · exact defineXY_parallel_props z hz
  · rename_i h
    exact defineXY_generic_props n z hn hz (not_lt.mp h)

/-- The plane normal is always a unit vector: every branch of the
computation returns either the default Z or a `normalize_vector` result. -/
theorem sqnorm_planeNormal (svd : List Vec3 → Vec3) (atoms : AtomDict) :
    sqnorm (planeNormalOf svd atoms) = 1 := by
  simp only [planeNormalOf]
  split
  · exact sqnorm_default_z
  · split
    · exact sqnorm_default_z
    · exact sqnorm_normalize _

theorem sqnorm_zAxisFor (coord_C4 center : Vec3) :
    sqnorm (zAxisFor coord_C4 center) = 1 := by
  unfold zAxisFor
  split
  · exact sqnorm_default_z
  · exact sqnorm_normalize _

/-- The orthonormality/right-handedness contract of a frame, with the
tolerances of the claim: pairwise dot products within `1e-3` of 0, norms
within `1e-6` of 1, and scalar triple product within `1e-3` of 1. -/
def FrameOrthonormalRH (f : Frame) : Prop :=
  |dot3 f.xAxis f.yAxis| ≤ 1 / 10 ^ 3 ∧
  |dot3 f.xAxis f.zAxis| ≤ 1 / 10 ^ 3 ∧
  |dot3 f.yAxis f.zAxis| ≤ 1 / 10 ^ 3 ∧
  |norm3 f.xAxis - 1| ≤ 1 / 10 ^ 6 ∧
  |norm3 f.yAxis - 1| ≤ 1 / 10 ^ 6 ∧
  |norm3 f.zAxis - 1| ≤ 1 / 10 ^ 6 ∧
  |dot3 (cross3 f.xAxis f.yAxis) f.zAxis - 1| ≤ 1 / 10 ^ 3

theorem frameOrthonormal_of_exact {f : Frame}
    (h1 : dot3 f.xAxis f.yAxis = 0) (h2 : dot3 f.xAxis f.zAxis = 0)
    (h3 : dot3 f.yAxis f.zAxis = 0) (h4 : sqnorm f.xAxis = 1)
    (h5 : sqnorm f.yAxis = 1) (h6 : sqnorm f.zAxis = 1)
    (h7 : dot3 (cross3 f.xAxis f.yAxis) f.zAxis = 1) :
    FrameOrthonormalRH f := by
  unfold FrameOrthonormalRH
  rw [h1, h2, h3, h7, norm3_eq_one_iff.mpr h4, norm3_eq_one_iff.mpr h5,
    norm3_eq_one_iff.mpr h6]
  norm_num

/-- The default basis frame satisfies the contract. -/
theorem default_frame_orthonormal (resn : String) (center : Vec3) :
    FrameOrthonormalRH ⟨resn, center, default_x, default_y, default_z⟩ := by
  apply frameOrthonormal_of_exact <;>
    simp [default_x, default_y, default_z, dot3, cross3, sqnorm]

/-- Every frame produced by the per-residue body satisfies the contract,
whatever the SVD returns. -/
theorem orientResidue_orthonormal (svd : List Vec3 → Vec3) (key : ResKey)
    (atoms : AtomDict) : FrameOrthonormalRH (orientResidue svd key atoms) := by
  simp only [orientResidue]
  split
  · exact default_frame_orthonormal _ _
  · split
    · exact default_frame_orthonormal _ _
    · rename_i coord_C4 heq
      split
      · exact default_frame_orthonormal _ _
      · obtain ⟨p1, p2, p3, p4, p5, p6⟩ :=
          defineXY_props (planeNormalOf svd atoms)
            (zAxisFor coord_C4 (mean3 (required_atoms.filterMap (dictGet atoms))))
            (sqnorm_planeNormal svd atoms) (sqnorm_zAxisFor _ _)
        exact frameOrthonormal_of_exact p1 p2 p3 p4 p5 (sqnorm_zAxisFor _ _) p6

/-- C2: every residue with at least 3 required atoms present receives a
frame (emitted by `get_residue_orientation`) whose axes are pairwise
orthogonal within `1e-3`, of unit norm within `1e-6`, and right-handed
(`dot(cross(x, y), z)` within `1e-3` of 1) — whatever the external SVD
returns. -/
theorem c2_frames_orthonormal (svd : List Vec3 → Vec3)
    (getModel : String → List Atom) (selection : String) (key : ResKey)
    (atoms : AtomDict)
    (hmem : (key, atoms) ∈ residueAtomsOf (getModel selection))
    (h3 : 3 ≤ (required_atoms.filterMap (dictGet atoms)).length) :
    orientResidue svd key atoms ∈ get_residue_orientation svd getModel selection ∧
    FrameOrthonormalRH (orientResidue svd key atoms) := by
  constructor
  · unfold get_residue_orientation
    exact List.mem_map_of_mem (fun p => orientResidue svd p.1 p.2) hmem
  · exact orientResidue_orthonormal svd key atoms

/-- The concrete `cmd.get_model` collaborator of the C2 witness: a single
MAN residue with atoms C1, C2, C3 (and no others). -/
def c2Model : String → List Atom := fun _ =>
  [⟨"C1", "A", "1", "MAN", ⟨0, 0, 0⟩⟩,
   ⟨"C2", "A", "1", "MAN", ⟨2, 0, 0⟩⟩,
   ⟨"C3", "A", "1", "MAN", ⟨0, 2, 0⟩⟩]

/-- The atom dictionary the collection loop builds for the C2 witness. -/
def c2Atoms : AtomDict := [("C1", ⟨0, 0, 0⟩), ("C2", ⟨2, 0, 0⟩), ("C3", ⟨0, 2, 0⟩)]

/-- Witness for C2, at a residue with exactly 3 required atoms present. -/
theorem c2_frames_orthonormal_witness :
    orientResidue (fun _ => default_z) (("A", "1", "MAN") : ResKey) c2Atoms ∈
      get_residue_orientation (fun _ => default_z) c2Model "all" ∧
    FrameOrthonormalRH
      (orientResidue (fun _ => default_z) (("A", "1", "MAN") : ResKey) c2Atoms) := by
  have hmem : ((("A", "1", "MAN") : ResKey), c2Atoms) ∈
      residueAtomsOf (c2Model "all") :=
    List.mem_singleton.mpr rfl
  exact c2_frames_orthonormal (fun _ => default_z) c2Model "all"
    ("A", "1", "MAN") c2Atoms hmem (by decide)

/-! ### C3: residues with fewer than 3 required atoms -/

theorem dictSet_ne_nil {α β : Type} [DecidableEq α] (l : List (α × β)) (k : α)
    (v : β) : dictSet l k v ≠ [] := by
  cases l with
  | nil => simp [dictSet]
  | cons p rest => unfold dictSet; split <;> simp

theorem mem_dictSet {α β : Type} [DecidableEq α] (l : List (α × β)) (k : α)
    (v : β) (p : α × β) (hp : p ∈ dictSet l k v) : p ∈ l ∨ p = (k, v) := by
  induction l with
  | nil =>
      simp only [dictSet, List.mem_singleton] at hp
      right; exact hp
  | cons q rest ih =>
      rw [show dictSet (q :: rest) k v
            = if q.1 = k then (k, v) :: rest else q :: dictSet rest k v by
          cases q; rfl] at hp
      split at hp
      · rcases List.mem_cons.mp hp with h | h
        · right; exact h
        · left; exact List.mem_cons_of_mem _ h
      · rcases List.mem_cons.mp hp with h | h
        · left; rw [h]; exact List.mem_cons_self _ _
        · rcases ih h with h' | h'
          · left; exact List.mem_cons_of_mem _ h'
          · right; exact h'

/-- Every residue entry built by the collection loop holds at least one
atom: a residue key is only created when one of its required atoms is
seen. -/
theorem residueAtoms_vals_ne_nil (model : List Atom) :
    ∀ p ∈ residueAtomsOf model, p.2 ≠ [] := by
  suffices h : ∀ (model : List Atom) (acc : List (ResKey × AtomDict)),
      (∀ p ∈ acc, p.2 ≠ []) →
      ∀ p ∈ model.foldl residueAtomsStep acc, p.2 ≠ [] by
    exact h model [] (by simp)
  intro model
  induction model with
  | nil =>
      intro acc hacc
      simpa using hacc
  | cons a rest ih =>
      intro acc hacc
      rw [List.foldl_cons]
      refine ih _ ?_
      intro q hq
      unfold residueAtomsStep at hq
      split at hq
      · split at hq
        · rcases mem_dictSet _ _ _ _ hq with h | h
          · exact hacc q h
          · rw [h]; exact dictSet_ne_nil _ _ _
        · rcases mem_dictSet _ _ _ _ hq with h | h
          · exact hacc q h
          · rw [h]; simp
      · exact hacc q hq

/-- C3 amended: every residue that contributed at least one required atom
but has fewer than 3 of them still receives a frame — never omitted — with
center the mean of its stored required-atom coordinates and the default
basis as axes.  (A residue none of whose atoms is a required atom never
enters the per-residue map at all, so the claim's origin fallback is
unreachable; see the counterexample.) -/
theorem c3_amended (svd : List Vec3 → Vec3) (getModel : String → List Atom)
    (selection : String) (key : ResKey) (atoms : AtomDict)
    (hmem : (key, atoms) ∈ residueAtomsOf (getModel selection))
    (hlt : (required_atoms.filterMap (dictGet atoms)).length < 3) :
    orientResidue svd key atoms =
      ⟨key.2.2, mean3 (atoms.map (·.2)), default_x, default_y, default_z⟩ ∧
    orientResidue svd key atoms ∈ get_residue_orientation svd getModel selection := by
  constructor
  · have hne : atoms ≠ [] := residueAtoms_vals_ne_nil _ _ hmem
    have hmapne : (atoms.map (·.2)).isEmpty = false := by
      cases atoms with
      | nil => exact absurd rfl hne
      | cons a l => rfl
    simp only [orientResidue, if_pos hlt, hmapne, Bool.false_eq_true, if_false]
  · unfold get_residue_orientation
    exact List.mem_map_of_mem (fun p => orientResidue svd p.1 p.2) hmem

/-- The concrete collaborator of the C3 witness: a single GLC residue whose
only required atom is C1. -/
def c3Model : String → List Atom := fun _ => [⟨"C1", "A", "7", "GLC", ⟨3, 4, 5⟩⟩]

/-- Witness for C3 (amended): a one-required-atom residue gets the mean of
its single coordinate as center and the default basis as axes, and appears
in the output. -/
theorem c3_amended_witness :
    orientResidue (fun _ => default_z) (("A", "7", "GLC") : ResKey)
        [("C1", ⟨3, 4, 5⟩)] =
      ⟨"GLC", mean3 [⟨3, 4, 5⟩], default_x, default_y, default_z⟩ ∧
    orientResidue (fun _ => default_z) (("A", "7", "GLC") : ResKey)
        [("C1", ⟨3, 4, 5⟩)] ∈
      get_residue_orientation (fun _ => default_z) c3Model "all" := by
  have h := c3_amended (fun _ => default_z) c3Model "all" ("A", "7", "GLC")
    [("C1", ⟨3, 4, 5⟩)] (List.mem_singleton.mpr rfl) (by decide)
  exact h

/-- The concrete collaborator of the C3 counterexample: the selection
contains one residue, but none of its atoms (here only a C6) is a required
atom. -/
def c3BadModel : String → List Atom := fun _ => [⟨"C6", "B", "9", "GLC", ⟨1, 2, 3⟩⟩]

/-- C3 counterexample: a residue present in the input with no required atom
is omitted entirely from the orientation output — `get_residue_orientation`
returns no frame for it (the claim instead promises an origin-centered
default frame). -/
theorem c3_counterexample :
    get_residue_orientation (fun _ => default_z) c3BadModel "all" = [] ∧
    c3BadModel "all" ≠ [] := by
  constructor
  · rfl
  · simp [c3BadModel]

/-! ### C1: fallback behaviour around the C4 atom -/

/-- C1 amended: with at least 3 required atoms, a residue *missing C4*
falls back to the default basis entirely; a residue whose C4 is *present
but coincident with the center* (distance < `1e-6`) gets only the default
Z axis — its X and Y axes are still computed from the plane normal and
need not equal the default basis. -/
theorem c1_amended (svd : List Vec3 → Vec3) (key : ResKey) (atoms : AtomDict)
    (h3 : ¬(required_atoms.filterMap (dictGet atoms)).length < 3) :
    (dictGet atoms "C4" = none →
      orientResidue svd key atoms =
        ⟨key.2.2, mean3 (required_atoms.filterMap (dictGet atoms)),
         default_x, default_y, default_z⟩) ∧
    (∀ c4 : Vec3, dictGet atoms "C4" = some c4 →
      norm3 (c4 - mean3 (required_atoms.filterMap (dictGet atoms))) < 1 / 10 ^ 6 →
      (orientResidue svd key atoms).zAxis = default_z) := by
  constructor
  · intro h4
    simp only [orientResidue, if_neg h3, h4]
  · intro c4 h4 hco
    simp only [orientResidue, if_neg h3, h4]
    rw [if_neg (by simp [vecHasNaN])]
    show zAxisFor c4 _ = default_z
    unfold zAxisFor
    rw [if_pos hco]

/-- The atom dictionary of the C1 amended-claim witness: three required
atoms, no C4. -/
def c1wAtoms : AtomDict := [("C1", ⟨1, 1, 1⟩), ("C2", ⟨2, 0, 0⟩), ("C3", ⟨0, 3, 0⟩)]

/-- Witness for C1 (amended): a C4-less residue with 3 required atoms gets
exactly the default basis. -/
theorem c1_amended_witness :
    orientResidue (fun _ => default_z) (("A", "1", "GLC") : ResKey) c1wAtoms =
      ⟨"GLC", mean3 (required_atoms.filterMap (dictGet c1wAtoms)),
       default_x, default_y, default_z⟩ :=
  (c1_amended (fun _ => default_z) ("A", "1", "GLC") c1wAtoms (by decide)).1 rfl

/-- The C1 counterexample model: one XYZ-named residue whose five ring
atoms lie in the x = 0 plane, with C4 exactly at their centroid. -/
def c1Model : String → List Atom := fun _ =>
  [⟨"C1", "A", "1", "XYZ", ⟨0, 1, 0⟩⟩,
   ⟨"C2", "A", "1", "XYZ", ⟨0, -1, 0⟩⟩,
   ⟨"C3", "A", "1", "XYZ", ⟨0, 0, 1⟩⟩,
   ⟨"C4", "A", "1", "XYZ", ⟨0, 0, 0⟩⟩,
   ⟨"C5", "A", "1", "XYZ", ⟨0, 0, -1⟩⟩]

/-- The atom dictionary the collection loop builds from `c1Model`. -/
def c1Atoms : AtomDict :=
  [("C1", ⟨0, 1, 0⟩), ("C2", ⟨0, -1, 0⟩), ("C3", ⟨0, 0, 1⟩),
   ("C4", ⟨0, 0, 0⟩), ("C5", ⟨0, 0, -1⟩)]

/-- The centered plane coordinates the code passes to the SVD for this
residue (their centroid is the origin, so centering is the identity). -/
def c1Centered : List Vec3 :=
  [⟨0, 1, 0⟩, ⟨0, -1, 0⟩, ⟨0, 0, 1⟩, ⟨0, 0, 0⟩, ⟨0, 0, -1⟩]

/-- An SVD model returning `(1,0,0)` as the last right-singular row —
valid for `c1Centered`, whose rows all lie in the x = 0 plane. -/
def svdPosX : List Vec3 → Vec3 := fun _ => ⟨1, 0, 0⟩

/-- The opposite-sign SVD model (the SVD fixes `vh[-1]` only up to sign). -/
def svdNegX : List Vec3 → Vec3 := fun _ => ⟨-1, 0, 0⟩

theorem c1ce_svd_pos : IsSvdLastRow c1Centered ⟨1, 0, 0⟩ := by
  constructor
  · unfold sqnorm dot3; norm_num
  · intro w hw
    have h0 : (c1Centered.map (fun r => dot3 r ⟨1, 0, 0⟩ ^ 2)).sum = 0 := by
      unfold c1Centered dot3
      norm_num
    rw [h0]
    apply List.sum_nonneg
    intro a ha
    obtain ⟨r, _, rfl⟩ := List.mem_map.mp ha
    positivity

theorem c1ce_svd_neg : IsSvdLastRow c1Centered ⟨-1, 0, 0⟩ := by
  constructor
  · unfold sqnorm dot3; norm_num
  · intro w hw
    have h0 : (c1Centered.map (fun r => dot3 r ⟨-1, 0, 0⟩ ^ 2)).sum = 0 := by
      unfold c1Centered dot3
      norm_num
    rw [h0]
    apply List.sum_nonneg
    intro a ha
    obtain ⟨r, _, rfl⟩ := List.mem_map.mp ha
    positivity

theorem c1ce_mean : mean3 c1Centered = ⟨0, 0, 0⟩ := by
  unfold mean3 c1Centered
  apply Vec3.ext_iff' <;> simp [Vec3.sdiv]

theorem c1ce_centered :
    (plane_atoms.filterMap (dictGet c1Atoms)).map
      (· - mean3 (plane_atoms.filterMap (dictGet c1Atoms))) = c1Centered := by
  rw [show plane_atoms.filterMap (dictGet c1Atoms) = c1Centered from rfl, c1ce_mean]
  unfold c1Centered
  norm_num

/-- The coordinate matrix of `c1Centered`, written as a matrix literal. -/
def c1M : Matrix (Fin 5) (Fin 3) ℝ :=
  Matrix.of ![![0, 1, 0], ![0, -1, 0], ![0, 0, 1], ![0, 0, 0], ![0, 0, -1]]

theorem c1ce_rank : matRank c1Centered = 2 := by
  have hM : rowMatrix c1Centered = c1M := by
    ext i j
    fin_cases i <;> fin_cases j <;> rfl
  have hT : c1M.transpose * c1M = Matrix.diagonal ![(0 : ℝ), 2, 2] := by
    ext i j
    fin_cases i <;> fin_cases j <;>
      simp [c1M, Matrix.mul_apply, Fin.sum_univ_five, Matrix.diagonal,
        Matrix.transpose_apply, Matrix.vecHead, Matrix.vecTail] <;> norm_num
  unfold matRank
  rw [hM, ← Matrix.rank_transpose_mul_self, hT, Matrix.rank_diagonal,
    Fintype.card_subtype]
  rw [show (Finset.univ.filter fun i => (![(0 : ℝ), 2, 2] : Fin 3 → ℝ) i ≠ 0)
        = {1, 2} by ext a; fin_cases a <;> simp]
  rfl

theorem c1ce_planeNormal_pos : planeNormalOf svdPosX c1Atoms = ⟨1, 0, 0⟩ := by
  simp only [planeNormalOf]
  rw [if_neg (by decide), c1ce_centered, c1ce_rank, if_neg (by decide)]
  exact normalize_of_unit (by unfold svdPosX sqnorm dot3; norm_num)

theorem c1ce_planeNormal_neg : planeNormalOf svdNegX c1Atoms = ⟨-1, 0, 0⟩ := by
  simp only [planeNormalOf]
  rw [if_neg (by decide), c1ce_centered, c1ce_rank, if_neg (by decide)]
  exact normalize_of_unit (by unfold svdNegX sqnorm dot3; norm_num)

theorem c1ce_xy_pos : defineXY ⟨1, 0, 0⟩ default_z = (⟨0, -1, 0⟩, ⟨1, 0, 0⟩) := by
  have hc1 : cross3 ⟨1, 0, 0⟩ default_z = ⟨0, -1, 0⟩ := by
    unfold cross3 default_z
    apply Vec3.ext_iff' <;> norm_num
  have hn1 : normalize_vector ⟨0, -1, 0⟩ = ⟨0, -1, 0⟩ :=
    normalize_of_unit (by unfold sqnorm dot3; norm_num)
  have hc2 : cross3 default_z ⟨0, -1, 0⟩ = ⟨1, 0, 0⟩ := by
    unfold cross3 default_z
    apply Vec3.ext_iff' <;> norm_num
  have hn2 : normalize_vector ⟨1, 0, 0⟩ = ⟨1, 0, 0⟩ :=
    normalize_of_unit (by unfold sqnorm dot3; norm_num)
  unfold defineXY
  rw [if_neg (by unfold dot3 default_z; norm_num)]
  unfold defineXY_generic
  rw [hc1, hn1, hc2, hn2]

theorem c1ce_xy_neg : defineXY ⟨-1, 0, 0⟩ default_z = (⟨0, 1, 0⟩, ⟨-1, 0, 0⟩) := by
  have hc1 : cross3 ⟨-1, 0, 0⟩ default_z = ⟨0, 1, 0⟩ := by
    unfold cross3 default_z
    apply Vec3.ext_iff' <;> norm_num
  have hn1 : normalize_vector ⟨0, 1, 0⟩ = ⟨0, 1, 0⟩ :=
    normalize_of_unit (by unfold sqnorm dot3; norm_num)
  have hc2 : cross3 default_z ⟨0, 1, 0⟩ = ⟨-1, 0, 0⟩ := by
    unfold cross3 default_z
    apply Vec3.ext_iff' <;> norm_num
  have hn2 : normalize_vector ⟨-1, 0, 0⟩ = ⟨-1, 0, 0⟩ :=
    normalize_of_unit (by unfold sqnorm dot3; norm_num)
  unfold defineXY
  rw [if_neg (by unfold dot3 default_z; norm_num)]
  unfold defineXY_generic
  rw [hc1, hn1, hc2, hn2]

theorem c1ce_center_coincident :
    norm3 ((⟨0, 0, 0⟩ : Vec3) - mean3 (required_atoms.filterMap (dictGet c1Atoms)))
      < 1 / 10 ^ 6 := by
  rw [show required_atoms.filterMap (dictGet c1Atoms) = c1Centered from rfl,
    c1ce_mean]
  have hv : (⟨0, 0, 0⟩ : Vec3) - ⟨0, 0, 0⟩ = ⟨0, 0, 0⟩ := by
    apply Vec3.ext_iff' <;> norm_num
  rw [hv]
  have : norm3 ⟨0, 0, 0⟩ = 0 := by
    unfold norm3 sqnorm dot3
    norm_num
  rw [this]
  norm_num

theorem c1ce_orient (svd : List Vec3 → Vec3) (n : Vec3)
    (hpn : planeNormalOf svd c1Atoms = n) (x y : Vec3)
    (hxy : defineXY n default_z = (x, y)) :
    orientResidue svd (("A", "1", "XYZ") : ResKey) c1Atoms =
      ⟨"XYZ", ⟨0, 0, 0⟩, x, y, default_z⟩ := by
  have hmean : mean3 (required_atoms.filterMap (dictGet c1Atoms)) = ⟨0, 0, 0⟩ := by
    rw [show required_atoms.filterMap (dictGet c1Atoms) = c1Centered from rfl]
    exact c1ce_mean
  simp only [orientResidue]
  rw [if_neg (by decide)]
  split
  · rename_i h
    rw [show dictGet c1Atoms "C4" = some (⟨0, 0, 0⟩ : Vec3) from rfl] at h
    exact Option.noConfusion h
  · rename_i c4 hc4
    have hc4' : c4 = ⟨0, 0, 0⟩ := by
      rw [show dictGet c1Atoms "C4" = some (⟨0, 0, 0⟩ : Vec3) from rfl] at hc4
      exact (Option.some.injEq _ _ ▸ hc4).symm
    subst hc4'
    rw [if_neg (by simp [vecHasNaN])]
    have hz : zAxisFor ⟨0, 0, 0⟩
        (mean3 (required_atoms.filterMap (dictGet c1Atoms))) = default_z := by
      unfold zAxisFor
      rw [if_pos c1ce_center_coincident]
    rw [hz, hpn, hxy, hmean]

/-- C1 counterexample: for this residue C4 is present and exactly coincident
with the center (distance 0 < 1e-6), yet the emitted frame's X and Y axes
are not the default basis — only Z falls back.  Both sign choices of the
SVD's last singular row (each a genuine minimiser, as the `IsSvdLastRow`
conjuncts certify) give non-default axes, refuting the claim that the
coincident case yields axes exactly equal to the default basis. -/
theorem c1_counterexample :
    IsSvdLastRow c1Centered ⟨1, 0, 0⟩ ∧
    IsSvdLastRow c1Centered ⟨-1, 0, 0⟩ ∧
    dictGet c1Atoms "C4" = some ⟨0, 0, 0⟩ ∧
    norm3 ((⟨0, 0, 0⟩ : Vec3) - mean3 (required_atoms.filterMap (dictGet c1Atoms)))
      < 1 / 10 ^ 6 ∧
    get_residue_orientation svdPosX c1Model "all" =
      [⟨"XYZ", ⟨0, 0, 0⟩, ⟨0, -1, 0⟩, ⟨1, 0, 0⟩, default_z⟩] ∧
    get_residue_orientation svdNegX c1Model "all" =
      [⟨"XYZ", ⟨0, 0, 0⟩, ⟨0, 1, 0⟩, ⟨-1, 0, 0⟩, default_z⟩] ∧
    (⟨0, -1, 0⟩ : Vec3) ≠ default_x ∧ (⟨0, 1, 0⟩ : Vec3) ≠ default_x := by
  have hbuild : residueAtomsOf (c1Model "all") =
      [((("A", "1", "XYZ") : ResKey), c1Atoms)] := rfl
  refine ⟨c1ce_svd_pos, c1ce_svd_neg, rfl, c1ce_center_coincident, ?_, ?_, ?_, ?_⟩
  · unfold get_residue_orientation
    rw [hbuild, List.map_singleton,
      c1ce_orient svdPosX ⟨1, 0, 0⟩ c1ce_planeNormal_pos _ _ c1ce_xy_pos]
  · unfold get_residue_orientation
    rw [hbuild, List.map_singleton,
      c1ce_orient svdNegX ⟨-1, 0, 0⟩ c1ce_planeNormal_neg _ _ c1ce_xy_neg]
  · intro h
    have := congrArg Vec3.y h
    simp [default_x] at this
  · intro h
    have := congrArg Vec3.y h
    simp [default_x] at this

/-! ### C4: one bad residue never aborts the render -/

/-- The primitives a frame contributes when its generator succeeds: the
generated list for table residues on success, nothing on a caught
exception or for residues outside the table. -/
def framePrims (gen : GenFun) (f : Frame) : List Tok :=
  match dictGet snfg_shapes f.resn with
  | none => []
  | some (color, shape) =>
      match gen f color shape with
      | .ok l => l
      | .error _ => []

/-- The concatenation of the primitives of all non-failing residues, in
order. -/
def okGeneratedPrims (gen : GenFun) (frames : List Frame) : List Tok :=
  (frames.map (framePrims gen)).flatten

theorem renderStep_cgo (gen : GenFun) (dbg : Bool) (alen arad : ℝ)
    (st : LoopState) (f : Frame) :
    (renderStep gen dbg alen arad st f).cgo_objects =
      st.cgo_objects ++ framePrims gen f := by
  rcases hshape : dictGet snfg_shapes f.resn with _ | p
  · simp [renderStep, framePrims, hshape]
  · rcases p with ⟨c, sh⟩
    rcases hgen : gen f c sh with e | l
    · simp [renderStep, framePrims, hshape, hgen]
    · by_cases hl : l.isEmpty = true
      · cases dbg <;>
          simp [renderStep, framePrims, hshape, hgen, List.isEmpty_iff.mp hl]
      · cases dbg <;> simp [renderStep, framePrims, hshape, hgen, hl]

theorem renderStep_logs_mono (gen : GenFun) (dbg : Bool) (alen arad : ℝ)
    (st : LoopState) (f : Frame) (e : LogEntry) (he : e ∈ st.logs) :
    e ∈ (renderStep gen dbg alen arad st f).logs := by
  rcases hshape : dictGet snfg_shapes f.resn with _ | p
  · simp only [renderStep, hshape]
    simpa using Or.inl he
  · rcases p with ⟨c, sh⟩
    rcases hgen : gen f c sh with e' | l
    · simp only [renderStep, hshape, hgen]
      simpa using Or.inl he
    · by_cases hl : l.isEmpty = true <;> cases dbg <;>
        simp [renderStep, hshape, hgen, hl, List.mem_append] <;>
        first | exact he | exact Or.inl he

theorem renderStep_logs_error (gen : GenFun) (dbg : Bool) (alen arad : ℝ)
    (st : LoopState) (f : Frame) (c : Color) (sh : String) (e : GenErr)
    (hshape : dictGet snfg_shapes f.resn = some (c, sh))
    (herr : gen f c sh = .error e) :
    LogEntry.cgoError f.resn f.center e ∈ (renderStep gen dbg alen arad st f).logs := by
  unfold renderStep
  rw [hshape]
  simp only [herr]
  simp

theorem renderLoop_cgo (gen : GenFun) (dbg : Bool) (alen arad : ℝ)
    (frames : List Frame) (st : LoopState) :
    (frames.foldl (renderStep gen dbg alen arad) st).cgo_objects =
      st.cgo_objects ++ okGeneratedPrims gen frames := by
  induction frames generalizing st with
  | nil => simp [okGeneratedPrims]
  | cons f rest ih =>
      rw [List.foldl_cons, ih, renderStep_cgo]
      simp [okGeneratedPrims]

theorem renderLoop_logs_mono (gen : GenFun) (dbg : Bool) (alen arad : ℝ)
    (frames : List Frame) (st : LoopState) (e : LogEntry) (he : e ∈ st.logs) :
    e ∈ (frames.foldl (renderStep gen dbg alen arad) st).logs := by
  induction frames generalizing st with
  | nil => simpa using he
  | cons f rest ih =>
      rw [List.foldl_cons]
      exact ih _ (renderStep_logs_mono gen dbg alen arad st f e he)

theorem renderLoop_logs_error (gen : GenFun) (dbg : Bool) (alen arad : ℝ)
    (frames : List Frame) (st : LoopState) (f : Frame) (hf : f ∈ frames)
    (c : Color) (sh : String) (e : GenErr)
    (hshape : dictGet snfg_shapes f.resn = some (c, sh))
    (herr : gen f c sh = .error e) :
    LogEntry.cgoError f.resn f.center e ∈
      (frames.foldl (renderStep gen dbg alen arad) st).logs := by
  induction frames generalizing st with
  | nil => cases hf
  | cons g rest ih =>
      rw [List.foldl_cons]
      rcases List.mem_cons.mp hf with h | h
      · subst h
        exact renderLoop_logs_mono gen dbg alen arad rest _ _
          (renderStep_logs_error gen dbg alen arad st f c sh e hshape herr)
      · exact ih (renderStep gen dbg alen arad st g) h

/-- C4: for any per-residue generator, the primary primitive list emitted
by the render is exactly the concatenation of the primitives of the
non-failing residues — a residue whose generation raises contributes
nothing but is logged (with its identity and the error), and the loop
continues with the remaining residues. -/
theorem c4_failures_isolated (gen : GenFun) (svd : List Vec3 → Vec3)
    (getModel : String → List Atom) (selection : String) (scale : ℝ)
    (dbg : Bool) :
    (render_core gen svd getModel selection scale dbg).1.cgo_objects =
      okGeneratedPrims gen
        (get_residue_orientation svd getModel (fullSelectionOf selection)) ∧
    (∀ f ∈ get_residue_orientation svd getModel (fullSelectionOf selection),
      ∀ (c : Color) (sh : String) (e : GenErr),
        dictGet snfg_shapes f.resn = some (c, sh) → gen f c sh = .error e →
        LogEntry.cgoError f.resn f.center e ∈
          (render_core gen svd getModel selection scale dbg).1.logs) := by
  simp only [render_core]
  split
  · rename_i hempty
    rw [List.isEmpty_iff.mp hempty]
    exact ⟨by simp [okGeneratedPrims], by simp⟩
  · constructor
    · split <;> (try split) <;> exact renderLoop_cgo _ _ _ _ _ _
    · intro f hf c sh e hshape herr
      split <;> (try split) <;>
        exact renderLoop_logs_error _ _ _ _ _ _ f hf c sh e hshape herr

/-- The two-residue model of the C4 witness: a GLC and a MAN residue. -/
def c4Model : String → List Atom := fun _ =>
  [⟨"C1", "A", "1", "GLC", ⟨0, 0, 0⟩⟩, ⟨"C1", "A", "2", "MAN", ⟨9, 9, 9⟩⟩]

/-- The C4 witness generator: raises on MAN residues, succeeds elsewhere. -/
def c4Gen : GenFun := fun f _ _ =>
  if f.resn = "MAN" then .error "boom" else .ok [Tok.COLOR]

/-- Witness for C4: with one failing residue (MAN) and one succeeding
residue (GLC), the render still emits the GLC primitives and logs the MAN
failure with its identity and error. -/
theorem c4_failures_isolated_witness :
    (render_core c4Gen (fun _ => default_z) c4Model "all" 1 false).1.cgo_objects =
      [Tok.COLOR] ∧
    LogEntry.cgoError "MAN" ⟨9, 9, 9⟩ "boom" ∈
      (render_core c4Gen (fun _ => default_z) c4Model "all" 1 false).1.logs := by
  have h := c4_failures_isolated c4Gen (fun _ => default_z) c4Model "all" 1 false
  constructor
  · rw [h.1]; rfl
  · have hlist : get_residue_orientation (fun _ => default_z) c4Model
        (fullSelectionOf "all") =
        [⟨"GLC", mean3 [⟨0, 0, 0⟩], default_x, default_y, default_z⟩,
         ⟨"MAN", mean3 [⟨9, 9, 9⟩], default_x, default_y, default_z⟩] := rfl
    have hmem : (⟨"MAN", mean3 [⟨9, 9, 9⟩], default_x, default_y,
        default_z⟩ : Frame) ∈ get_residue_orientation (fun _ => default_z)
          c4Model (fullSelectionOf "all") := by
      rw [hlist]
      exact List.mem_cons_of_mem _ (List.mem_singleton.mpr rfl)
    have hres := h.2 ⟨"MAN", mean3 [⟨9, 9, 9⟩], default_x, default_y, default_z⟩
      hmem SNFG_GREEN "sphere" "boom" rfl rfl
    have hcenter : mean3 [(⟨9, 9, 9⟩ : Vec3)] = ⟨9, 9, 9⟩ := by
      unfold mean3
      apply Vec3.ext_iff' <;> simp [Vec3.sdiv]
    rw [hcenter] at hres
    exact hres

/-! ### C5: determinism and replacement -/

/-- The debug-axes effect suffix (snfg.py lines 610-614). -/
def axesEffects (selection : String) (dbg : Bool) (st : LoopState) :
    List SinkCmd :=
  if dbg && !st.debug_cgo_objects.isEmpty then
    [.del (axesNameOf selection), .load (axesNameOf selection) st.debug_cgo_objects]
  else []

/-- The replacement contract, for an arbitrary per-residue generator. -/
theorem render_core_replacement (gen : GenFun) (svd : List Vec3 → Vec3)
    (getModel : String → List Atom) (selection : String) (scale : ℝ)
    (dbg : Bool)
    (hne : (render_core gen svd getModel selection scale dbg).1.cgo_objects ≠ []) :
    (render_core gen svd getModel selection scale dbg).2 =
      [.del (cgoNameOf selection),
       .load (cgoNameOf selection)
         (render_core gen svd getModel selection scale dbg).1.cgo_objects] ++
        axesEffects selection dbg (render_core gen svd getModel selection scale dbg).1 := by
  revert hne
  simp only [render_core, axesEffects]
  split
  · intro hne
    exact absurd rfl hne
  · split
    · rename_i hfin
      intro hne
      exact absurd (by split <;> exact List.isEmpty_iff.mp hfin) hne
    · rename_i hfin
      intro hne
      rfl

/-- C5: re-running `render_snfg` with an unchanged selection and parameters
produces identical results (the pipeline is a pure function of its inputs —
no shared mutable state), and whenever primitives are emitted the effect
trace deletes the derived object name before loading the new list under the
same name, so a second run replaces the first object instead of
accumulating. -/
theorem c5_idempotent_replacement (svd : List Vec3 → Vec3)
    (getModel : String → List Atom) (selection : String) (scale : ℝ)
    (dbg : Bool)
    (hne : (render_snfg svd getModel selection scale dbg).1.cgo_objects ≠ []) :
    render_snfg svd getModel selection scale dbg =
      render_snfg svd getModel selection scale dbg ∧
    (render_snfg svd getModel selection scale dbg).2 =
      [.del (cgoNameOf selection),
       .load (cgoNameOf selection)
         (render_snfg svd getModel selection scale dbg).1.cgo_objects] ++
        axesEffects selection dbg (render_snfg svd getModel selection scale dbg).1 :=
  ⟨rfl, render_core_replacement _ svd getModel selection scale dbg hne⟩

/-- The single-residue model of the C5 and C10 witnesses. -/
def c5Model : String → List Atom := fun _ => [⟨"C1", "A", "1", "GLC", ⟨1, 2, 3⟩⟩]

/-- Witness for C5: an actual `render_snfg` run (one GLC residue, rendered
as a sphere) emits primitives and the trace deletes then reloads the
derived name. -/
theorem c5_idempotent_replacement_witness :
    (render_snfg (fun _ => default_z) c5Model "all" 1 false).1.cgo_objects ≠ [] ∧
    (render_snfg (fun _ => default_z) c5Model "all" 1 false).2 =
      [.del (cgoNameOf "all"),
       .load (cgoNameOf "all")
         (render_snfg (fun _ => default_z) c5Model "all" 1 false).1.cgo_objects] ++
        axesEffects "all" false
          (render_snfg (fun _ => default_z) c5Model "all" 1 false).1 := by
  have hlen : (render_snfg (fun _ => default_z) c5Model "all" 1 false).1.cgo_objects.length
      = 9 := rfl
  have hne : (render_snfg (fun _ => default_z) c5Model "all" 1 false).1.cgo_objects
      ≠ [] := by
    intro h
    rw [h] at hlen
    cases hlen
  exact ⟨hne,
    (c5_idempotent_replacement (fun _ => default_z) c5Model "all" 1 false hne).2⟩

/-! ### C10: an empty primary list leaves the previous object in place -/

theorem cgoName_ne_axesName (selection : String) :
    cgoNameOf selection ≠ axesNameOf selection := by
  unfold axesNameOf
  intro h
  have hlen := congrArg String.length h
  rw [String.length_append] at hlen
  have h5 : "_axes".length = 5 := by decide
  omega

/-- C10: when the accumulated primary primitive list is empty, the render
neither deletes nor loads the primary derived name — a previously loaded
primary object stays in place — and, if debug axes were requested and
generated, they are loaded under the axes name without a prior delete of
that name. -/
theorem c10_empty_primary_not_replaced (gen : GenFun) (svd : List Vec3 → Vec3)
    (getModel : String → List Atom) (selection : String) (scale : ℝ)
    (dbg : Bool)
    (h : (render_core gen svd getModel selection scale dbg).1.cgo_objects = []) :
    (render_core gen svd getModel selection scale dbg).2 =
      (if dbg &&
          !(render_core gen svd getModel selection scale dbg).1.debug_cgo_objects.isEmpty
        then [SinkCmd.load (axesNameOf selection)
          (render_core gen svd getModel selection scale dbg).1.debug_cgo_objects]
        else []) ∧
    (∀ obj : List Tok, SinkCmd.load (cgoNameOf selection) obj ∉
      (render_core gen svd getModel selection scale dbg).2) ∧
    SinkCmd.del (cgoNameOf selection) ∉
      (render_core gen svd getModel selection scale dbg).2 ∧
    SinkCmd.del (axesNameOf selection) ∉
      (render_core gen svd getModel selection scale dbg).2 := by
  revert h
  simp only [render_core]
  split
  · intro h
    refine ⟨by simp, by simp, by simp, by simp⟩
  · split
    · intro h
      refine ⟨?_, ?_, ?_, ?_⟩ <;> split <;> rename_i hb <;>
        simp [hb, cgoName_ne_axesName]
    · rename_i hfin
      intro h
      exact absurd h (by simpa using hfin)

/-- The C10 witness generator: succeeds but generates nothing (the source
logs a warning and appends no primitives, yet still draws debug axes). -/
def c10Gen : GenFun := fun _ _ _ => .ok []

/-- Witness for C10: a render whose primary list ends up empty while debug
axes were generated loads only the axes object, with no delete at all. -/
theorem c10_empty_primary_not_replaced_witness :
    (render_core c10Gen (fun _ => default_z) c5Model "all" 1 true).1.cgo_objects = [] ∧
    (render_core c10Gen (fun _ => default_z) c5Model "all" 1 true).2 =
      (if true &&
          !(render_core c10Gen (fun _ => default_z) c5Model "all" 1 true).1.debug_cgo_objects.isEmpty
        then [SinkCmd.load (axesNameOf "all")
          (render_core c10Gen (fun _ => default_z) c5Model "all" 1 true).1.debug_cgo_objects]
        else []) := by
  have h : (render_core c10Gen (fun _ => default_z) c5Model "all" 1 true).1.cgo_objects
      = [] := rfl
  exact ⟨h, (c10_empty_primary_not_replaced c10Gen (fun _ => default_z) c5Model
    "all" 1 true h).1⟩

end

end Reglyco
